import Mathlib

/-!
# Verification of the dsm distance-measurement apps

Shallow embedding of the three app variants of the repository:

* `V1` — `DistanceMeasurementApp` (two-point linear scale factor variant),
* `V2` — `AccurateDistanceMeasurementApp` with OpenCV.js (four-corner
  perspective-correction variant, `scripts/app.js`),
* `V3` — the enhanced hybrid `AccurateDistanceMeasurementApp` that falls back
  from the OpenCV path to an enhanced two-point path.

Numbers are modelled by the reals; the external computer-vision library is a
parameter (`CVLib`), so every statement about the perspective path is
parametric in the library, which is exactly what "computed by an external
library, not by this code" means.  UI-only effects (canvas drawing, sounds,
status text, temporary messages) have no state representation; modal
visibility is modelled only where a claim depends on it (`V3`).

A small IEEE-style number type `JsNum` refines the real-number model for the
one claim about division by zero producing a non-finite value.
-/

/-- Unit selector values; conversion factors to the canonical unit follow the
`units` tables of all three variants. -/
inductive UnitKey where
  | mm | cm | m | inch | ft
deriving DecidableEq, Repr

/-- `units[u].factor` from the sources (identical tables in all variants). -/
def unitFactor : UnitKey → ℝ
  | .mm => 1
  | .cm => 0.1
  | .m => 0.001
  | .inch => 0.0393701
  | .ft => 0.00328084

/-- A clicked point `{ x, y, timestamp: Date.now() }`. -/
structure TPoint where
  x : ℝ
  y : ℝ
  timestamp : ℕ

/-- A calibration corner `{ x, y, step: this.currentStep }`. -/
structure CPoint where
  x : ℝ
  y : ℝ
  step : ℕ

/-- `Math.sqrt(Math.pow(p2.x - p1.x, 2) + Math.pow(p2.y - p1.y, 2))`. -/
noncomputable def pixelDistance (p q : TPoint) : ℝ :=
  Real.sqrt ((q.x - p.x) ^ 2 + (q.y - p.y) ^ 2)

/-- Same formula applied to two calibration corners (used on
`srcPoints[0]`/`srcPoints[1]` during precision calibration). -/
noncomputable def cornerDistance (p q : CPoint) : ℝ :=
  Real.sqrt ((q.x - p.x) ^ 2 + (q.y - p.y) ^ 2)

/-- `measurements.reduce((sum, m) => sum + m.distance, 0)`. -/
def jsSum (l : List ℝ) : ℝ := l.foldl (fun a b => a + b) 0

/-- `Math.min(...ds)` for a non-empty argument list (the empty case is behind
the "No measurements to export" guard in every variant). -/
def jsMinList : List ℝ → ℝ
  | [] => 0
  | d :: ds => ds.foldl min d

/-- `Math.max(...ds)` for a non-empty argument list. -/
def jsMaxList : List ℝ → ℝ
  | [] => 0
  | d :: ds => ds.foldl max d

/-- The external computer-vision library, as seen by this code: a homography
solve (`cv.getPerspectiveTransform`) and a point transform
(`cv.perspectiveTransform`).  The repository never looks inside `PM`. -/
structure CVLib (PM : Type) where
  getPerspectiveTransform : List (ℝ × ℝ) → List (ℝ × ℝ) → PM
  perspectiveTransform : PM → (ℝ × ℝ) → (ℝ × ℝ)

/-- A trivial instance of the library interface, used to instantiate
parametric theorems at concrete inputs. -/
def trivLib : CVLib Unit where
  getPerspectiveTransform := fun _ _ => ()
  perspectiveTransform := fun _ p => p

namespace V1

/-! ## V1: `DistanceMeasurementApp` (two-point linear variant) -/

/-- The two selectable modes of this variant. -/
inductive Mode where
  | ar | camera
deriving DecidableEq, Repr

/-- Reference-object keys of the `referenceObjects` table. -/
inductive RefKey where
  | credit_card | quarter | iphone | a4_paper | business_card
deriving DecidableEq, Repr

/-- A reference object; absent dictionary fields are `none`. -/
structure RefObj where
  name : String
  width : Option ℝ := none
  height : Option ℝ := none
  diameter : Option ℝ := none

/-- The `referenceObjects` table. -/
def referenceObjects : RefKey → RefObj
  | .credit_card => { name := "Credit Card", width := some 85.6, height := some 53.98 }
  | .quarter => { name := "US Quarter", diameter := some 24.26 }
  | .iphone => { name := "iPhone Standard", width := some 67.3, height := some 138.4 }
  | .a4_paper => { name := "A4 Paper", width := some 210, height := some 297 }
  | .business_card => { name := "Business Card", width := some 89, height := some 51 }

/-- `reference.width || reference.diameter`: the width when the field is
present (all widths in the table are non-zero, so presence and JS truthiness
agree), otherwise the diameter. -/
def realSize (r : RefObj) : ℝ :=
  match r.width with
  | some w => w
  | none => r.diameter.getD 0

/-- A stored `Measurement` record of this variant. -/
structure Measurement where
  id : ℕ
  distance : ℝ
  displayDistance : ℝ
  unit : UnitKey
  timestamp : ℕ
  points : List TPoint
  mode : Option Mode
  calibrationFactor : ℝ

/-- The mutable app state (DOM-only fields omitted; `referenceSelect` models
the value of the reference `<select>` element). -/
structure State where
  currentMode : Option Mode
  isCalibrated : Bool
  calibrationFactor : ℝ
  measurements : List Measurement
  measurementPoints : List TPoint
  currentUnit : UnitKey
  isMeasuring : Bool
  isCalibrationMode : Bool
  referenceSelect : RefKey

/-- Constructor state. -/
def initState : State where
  currentMode := none
  isCalibrated := false
  calibrationFactor := 1
  measurements := []
  measurementPoints := []
  currentUnit := .m
  isMeasuring := false
  isCalibrationMode := false
  referenceSelect := .credit_card

/-- `completeCalibration`: computes the mm-per-pixel factor from the two
clicked ends of the reference object and marks the app calibrated. -/
noncomputable def completeCalibration (s : State) : State :=
  let reference := referenceObjects s.referenceSelect
  match s.measurementPoints with
  | [p1, p2] =>
    let pd := pixelDistance p1 p2
    { s with
      calibrationFactor := realSize reference / pd
      isCalibrated := true
      isCalibrationMode := false
      isMeasuring := false
      measurementPoints := [] }
  | _ => s

/-- `calculateDistance`: converts the pixel distance between the two clicked
points to millimetres using the calibration factor and appends a
`Measurement`. -/
noncomputable def calculateDistance (now : ℕ) (s : State) : State :=
  match s.measurementPoints with
  | [p1, p2] =>
    let pd := pixelDistance p1 p2
    let distanceInMM := pd * s.calibrationFactor
    let distanceInUnit := distanceInMM * unitFactor s.currentUnit
    let meas : Measurement :=
      { id := now
        distance := distanceInMM
        displayDistance := distanceInUnit
        unit := s.currentUnit
        timestamp := now
        points := s.measurementPoints
        mode := s.currentMode
        calibrationFactor := s.calibrationFactor }
    { s with
      measurements := s.measurements ++ [meas]
      measurementPoints := []
      isMeasuring := false }
  | _ => s

/-- `startCalibration` (minus the modal/instruction updates). -/
def startCalibration (s : State) : State :=
  { s with measurementPoints := [], isCalibrationMode := true, isMeasuring := true }

/-- `handleCanvasClick`: records the point and completes calibration or a
measurement once two points are present. -/
noncomputable def handleCanvasClick (now : ℕ) (x y : ℝ) (s : State) : State :=
  if s.isMeasuring = false then s
  else
    let s1 := { s with measurementPoints := s.measurementPoints ++ [⟨x, y, now⟩] }
    if s1.isCalibrationMode = true ∧ s1.measurementPoints.length = 2 then
      completeCalibration s1
    else if s1.isCalibrationMode = false ∧ s1.measurementPoints.length = 2 then
      calculateDistance now s1
    else s1

/-- `startMeasuring`. -/
def startMeasuring (s : State) : State :=
  { s with isMeasuring := true, measurementPoints := [] }

/-- `stopMeasuring`. -/
def stopMeasuring (s : State) : State :=
  { s with isMeasuring := false, measurementPoints := [] }

/-- `toggleMeasurement`: the calibration modal is shown instead of measuring
only in camera mode. -/
def toggleMeasurement (s : State) : State :=
  if s.isCalibrated = false ∧ s.currentMode = some .camera then s
  else if s.isMeasuring then stopMeasuring s else startMeasuring s

/-- `selectMode` (both initializers only touch DOM/camera state). -/
def selectMode (m : Mode) (s : State) : State :=
  { s with currentMode := some m }

/-- `clearMeasurements`. -/
def clearMeasurements (s : State) : State :=
  { s with measurementPoints := [], measurements := [], isMeasuring := false }

/-- One serialized measurement of the export document. -/
structure ExportMeasurement where
  id : ℕ
  distance_mm : ℝ
  distance_display : ℝ
  unit : UnitKey
  timestamp : ℕ
  mode : Option Mode
  points : List TPoint

/-- The export `summary` block. -/
structure ExportSummary where
  totalMeasurements : ℕ
  averageDistance : ℝ
  minDistance : ℝ
  maxDistance : ℝ

/-- The produced export document (app/device metadata omitted). -/
structure ExportData where
  measurements : List ExportMeasurement
  summary : ExportSummary

/-- `exportMeasurements`: an error and no file when the list is empty,
otherwise one entry per stored measurement plus a summary.  The function
reads but never mutates the app state. -/
noncomputable def exportMeasurements (s : State) : Except String ExportData :=
  if s.measurements.length = 0 then .error "No measurements to export"
  else
    let ds := s.measurements.map (fun meas => meas.distance)
    .ok
      { measurements := s.measurements.map (fun meas =>
          { id := meas.id
            distance_mm := meas.distance
            distance_display := meas.displayDistance
            unit := meas.unit
            timestamp := meas.timestamp
            mode := meas.mode
            points := meas.points })
        summary :=
          { totalMeasurements := s.measurements.length
            averageDistance := jsSum ds / (s.measurements.length : ℝ)
            minDistance := jsMinList ds
            maxDistance := jsMaxList ds } }

end V1

namespace V2

/-! ## V2: `AccurateDistanceMeasurementApp` with OpenCV.js (`scripts/app.js`) -/

/-- The three selectable modes. -/
inductive Mode where
  | precision | ar | basic
deriving DecidableEq, Repr

/-- Reference-object keys of this variant's table (all rectangles). -/
inductive RefKey where
  | credit_card | business_card | a4_paper | letter_paper | post_it
deriving DecidableEq, Repr

/-- A reference object of this variant. -/
structure RefObj where
  name : String
  width : ℝ
  height : ℝ
  tolerance : ℝ

/-- The `referenceObjects` table. -/
def referenceObjects : RefKey → RefObj
  | .credit_card => { name := "Credit Card", width := 85.6, height := 53.98, tolerance := 0.5 }
  | .business_card => { name := "Business Card", width := 89, height := 51, tolerance := 1.0 }
  | .a4_paper => { name := "A4 Paper", width := 210, height := 297, tolerance := 2.0 }
  | .letter_paper => { name := "US Letter", width := 216, height := 279, tolerance := 2.0 }
  | .post_it => { name := "Post-it Note", width := 76, height := 76, tolerance := 1.0 }

/-- The `calibrationData` object stored by `completePrecisionCalibration`. -/
structure CalData (PM : Type) where
  pixelsPerMM : ℝ
  perspectiveMatrix : PM
  referenceObject : RefObj
  scale : ℝ
  correctedWidth : ℝ
  correctedHeight : ℝ

/-- A stored measurement record; `correctedPoints` is only present on the
perspective-corrected path. -/
structure Measurement where
  id : ℕ
  distance : ℝ
  displayDistance : ℝ
  unit : UnitKey
  timestamp : ℕ
  points : List TPoint
  correctedPoints : Option (List (ℝ × ℝ)) := none
  mode : Mode
  accuracy : String
  method : String

/-- The mutable app state, including the module-level `isOpenCVReady` flag
(set once by the OpenCV load callback, never cleared). -/
structure State (PM : Type) where
  currentMode : Option Mode
  isCalibrated : Bool
  calibrationData : Option (CalData PM)
  measurements : List Measurement
  measurementPoints : List TPoint
  calibrationPoints : List CPoint
  currentUnit : UnitKey
  isMeasuring : Bool
  isCalibrationMode : Bool
  referenceObject : Option RefObj
  perspectiveMatrix : Option PM
  currentStep : ℕ
  isOpenCVReady : Bool
  precisionReferenceSelect : RefKey

variable {PM : Type}

/-- Constructor state, for a given initial value of the reference select. -/
def initState (sel : RefKey) : State PM where
  currentMode := none
  isCalibrated := false
  calibrationData := none
  measurements := []
  measurementPoints := []
  calibrationPoints := []
  currentUnit := .m
  isMeasuring := false
  isCalibrationMode := false
  referenceObject := none
  perspectiveMatrix := none
  currentStep := 0
  isOpenCVReady := false
  precisionReferenceSelect := sel

/-- `resetCalibration`. -/
def resetCalibration (s : State PM) : State PM :=
  { s with
    isCalibrated := false
    calibrationData := none
    calibrationPoints := []
    perspectiveMatrix := none
    currentStep := 0 }

/-- `resetMeasurementState`. -/
def resetMeasurementState (s : State PM) : State PM :=
  { s with measurementPoints := [], isMeasuring := false }

/-- `startPrecisionCalibration`: chooses the reference object, clears the
corner list and enters the four-step calibration at step 1. -/
def startPrecisionCalibration (s : State PM) : State PM :=
  { s with
    referenceObject := some (referenceObjects s.precisionReferenceSelect)
    calibrationPoints := []
    isCalibrationMode := true
    isMeasuring := true
    currentStep := 1 }

/-- `completePrecisionCalibration`: with four corners and OpenCV ready, one
call into the library yields the perspective matrix for the destination
rectangle `(0,0)-(W*10,H*10)`; otherwise only an error message is shown.  A
missing reference object would make the JS body throw before any state
mutation, and the `catch` runs `resetCalibration`. -/
noncomputable def completePrecisionCalibration (lib : CVLib PM) (s : State PM) : State PM :=
  match s.calibrationPoints, s.isOpenCVReady, s.referenceObject with
  | [c1, c2, c3, c4], true, some ref =>
    let srcPoints : List (ℝ × ℝ) := [(c1.x, c1.y), (c2.x, c2.y), (c3.x, c3.y), (c4.x, c4.y)]
    let scale : ℝ := 10
    let dstPoints : List (ℝ × ℝ) :=
      [(0, 0), (ref.width * scale, 0), (ref.width * scale, ref.height * scale),
        (0, ref.height * scale)]
    let matrix := lib.getPerspectiveTransform srcPoints dstPoints
    let pd := cornerDistance c1 c2
    { s with
      perspectiveMatrix := some matrix
      calibrationData := some
        { pixelsPerMM := pd / ref.width
          perspectiveMatrix := matrix
          referenceObject := ref
          scale := scale
          correctedWidth := ref.width * scale
          correctedHeight := ref.height * scale }
      isCalibrated := true
      isCalibrationMode := false
      isMeasuring := false
      calibrationPoints := [] }
  | [_, _, _, _], true, none => resetCalibration s
  | _, _, _ => s

/-- `handleCalibrationClick`: records the corner tagged with the current step
and either advances the step or completes the calibration. -/
noncomputable def handleCalibrationClick (lib : CVLib PM) (x y : ℝ) (s : State PM) : State PM :=
  let s1 := { s with calibrationPoints := s.calibrationPoints ++ [⟨x, y, s.currentStep⟩] }
  if s1.currentStep < 4 then { s1 with currentStep := s1.currentStep + 1 }
  else completePrecisionCalibration lib s1

/-- `calculateDistanceWithPerspectiveCorrection`: maps both points through
the library transform and converts the corrected distance to millimetres.
`none` models the JS exception on a missing matrix or calibration data. -/
noncomputable def calculateDistanceWithPerspectiveCorrection
    (lib : CVLib PM) (now : ℕ) (s : State PM) : Option (State PM) :=
  match s.measurementPoints, s.perspectiveMatrix, s.calibrationData with
  | [p1, p2], some matrix, some cd =>
    let q1 := lib.perspectiveTransform matrix (p1.x, p1.y)
    let q2 := lib.perspectiveTransform matrix (p2.x, p2.y)
    let correctedDistance := Real.sqrt ((q2.1 - q1.1) ^ 2 + (q2.2 - q1.2) ^ 2)
    let distanceInMM := correctedDistance / cd.scale
    let distanceInUnit := distanceInMM * unitFactor s.currentUnit
    let meas : Measurement :=
      { id := now
        distance := distanceInMM
        displayDistance := distanceInUnit
        unit := s.currentUnit
        timestamp := now
        points := s.measurementPoints
        correctedPoints := some [q1, q2]
        mode := .precision
        accuracy := "high"
        method := "perspective_correction" }
    some { s with
      measurements := s.measurements ++ [meas]
      measurementPoints := []
      isMeasuring := false }
  | _, _, _ => none

/-- `calculateBasicDistance`: linear conversion through
`calibrationData.pixelsPerMM`; `none` models the JS exception when
`calibrationData` is null. -/
noncomputable def calculateBasicDistance (now : ℕ) (s : State PM) : Option (State PM) :=
  match s.measurementPoints, s.calibrationData with
  | [p1, p2], some cd =>
    let pd := pixelDistance p1 p2
    let distanceInMM := pd / cd.pixelsPerMM
    let distanceInUnit := distanceInMM * unitFactor s.currentUnit
    let meas : Measurement :=
      { id := now
        distance := distanceInMM
        displayDistance := distanceInUnit
        unit := s.currentUnit
        timestamp := now
        points := s.measurementPoints
        mode := .basic
        accuracy := "medium"
        method := "triangle_similarity" }
    some { s with
      measurements := s.measurements ++ [meas]
      measurementPoints := []
      isMeasuring := false }
  | _, _ => none

/-- `calculatePreciseDistance`: guarded by the point count and the
calibrated flag, then dispatches on the mode and the presence of the
perspective matrix; the surrounding try/catch turns an exception into an
error message with no state change (`Option.getD s`). -/
noncomputable def calculatePreciseDistance (lib : CVLib PM) (now : ℕ) (s : State PM) :
    State PM :=
  if s.measurementPoints.length ≠ 2 ∨ s.isCalibrated = false then s
  else if s.currentMode = some Mode.precision ∧ s.perspectiveMatrix.isSome then
    (calculateDistanceWithPerspectiveCorrection lib now s).getD s
  else
    (calculateBasicDistance now s).getD s

/-- `handleMeasurementClick`. -/
noncomputable def handleMeasurementClick (lib : CVLib PM) (now : ℕ) (x y : ℝ)
    (s : State PM) : State PM :=
  let s1 := { s with measurementPoints := s.measurementPoints ++ [⟨x, y, now⟩] }
  if s1.measurementPoints.length = 2 then calculatePreciseDistance lib now s1 else s1

/-- `handleCanvasClick`. -/
noncomputable def handleCanvasClick (lib : CVLib PM) (now : ℕ) (x y : ℝ)
    (s : State PM) : State PM :=
  if s.isMeasuring = false then s
  else if s.isCalibrationMode then handleCalibrationClick lib x y s
  else handleMeasurementClick lib now x y s

/-- `startMeasuring`. -/
def startMeasuring (s : State PM) : State PM :=
  { s with isMeasuring := true, measurementPoints := [] }

/-- `stopMeasuring`. -/
def stopMeasuring (s : State PM) : State PM := resetMeasurementState s

/-- `toggleMeasurement`: without calibration only a modal is shown. -/
def toggleMeasurement (s : State PM) : State PM :=
  if s.isCalibrated = false then s
  else if s.isMeasuring then stopMeasuring s else startMeasuring s

/-- `clearMeasurements`. -/
def clearMeasurements (s : State PM) : State PM :=
  resetMeasurementState { s with measurementPoints := [], measurements := [] }

/-- `undoLastPoint`. -/
def undoLastPoint (s : State PM) : State PM :=
  if s.measurementPoints.length > 0 then
    { s with measurementPoints := s.measurementPoints.dropLast }
  else s

/-- `startNewMeasurement`. -/
def startNewMeasurement (s : State PM) : State PM :=
  resetMeasurementState { s with measurementPoints := [] }

/-- `showRecalibration`: in precision mode the calibration is reset and the
modal reopened; in other modes only a message is shown. -/
def showRecalibration (s : State PM) : State PM :=
  if s.currentMode = some Mode.precision then resetCalibration s else s

/-- `goBack`. -/
def goBack (s : State PM) : State PM :=
  { resetCalibration s with
    currentMode := none
    isMeasuring := false
    measurementPoints := []
    perspectiveMatrix := none }

/-- `initializePrecisionMode`: when OpenCV is not ready, an error is shown
and `goBack` runs; otherwise only the calibration modal opens. -/
def initializePrecisionMode (s : State PM) : State PM :=
  if s.isOpenCVReady = false then goBack s else s

/-- `selectMode` (AR mode falls back to the precision initializer). -/
def selectMode (m : Mode) (s : State PM) : State PM :=
  let s1 := { s with currentMode := some m }
  match m with
  | .precision => initializePrecisionMode s1
  | .ar => initializePrecisionMode s1
  | .basic => s1

/-- `onOpenCvReady` (module-level callback). -/
def onOpenCvReady (s : State PM) : State PM :=
  { s with isOpenCVReady := true }

/-- The UI events that mutate app state. -/
inductive Ev where
  | opencvReady
  | selectMode (m : Mode)
  | startPrecisionCalibration
  | canvasClick (now : ℕ) (x y : ℝ)
  | toggleMeasurement
  | clearMeasurements
  | undoLastPoint
  | startNewMeasurement
  | showRecalibration
  | goBack

/-- One event handler dispatch. -/
noncomputable def step (lib : CVLib PM) : Ev → State PM → State PM
  | .opencvReady, s => onOpenCvReady s
  | .selectMode m, s => selectMode m s
  | .startPrecisionCalibration, s => startPrecisionCalibration s
  | .canvasClick now x y, s => handleCanvasClick lib now x y s
  | .toggleMeasurement, s => toggleMeasurement s
  | .clearMeasurements, s => clearMeasurements s
  | .undoLastPoint, s => undoLastPoint s
  | .startNewMeasurement, s => startNewMeasurement s
  | .showRecalibration, s => showRecalibration s
  | .goBack, s => goBack s

/-- Run a list of events from a state. -/
noncomputable def runEvents (lib : CVLib PM) (evs : List Ev) (s : State PM) : State PM :=
  evs.foldl (fun t e => step lib e t) s

/-- States reachable from the constructor state without the mid-session
`showRecalibration` event. -/
inductive ReachableBenign (lib : CVLib PM) : State PM → Prop where
  | init (sel : RefKey) : ReachableBenign lib (initState sel)
  | step {s : State PM} (e : Ev) (hr : ReachableBenign lib s)
      (he : e ≠ Ev.showRecalibration) : ReachableBenign lib (step lib e s)

/-- One serialized measurement of the export document. -/
structure ExportMeasurement where
  id : ℕ
  distance_mm : ℝ
  distance_display : ℝ
  unit : UnitKey
  timestamp : ℕ
  mode : Mode
  accuracy : String
  method : String

/-- The export `summary` block. -/
structure ExportSummary where
  totalMeasurements : ℕ
  averageDistance : ℝ
  minDistance : ℝ
  maxDistance : ℝ

/-- The produced export document (metadata blocks omitted). -/
structure ExportData where
  measurements : List ExportMeasurement
  summary : ExportSummary

/-- `exportMeasurements`: error (and no file, no state change) on an empty
list, otherwise one entry per measurement plus the summary. -/
noncomputable def exportMeasurements (s : State PM) : Except String ExportData :=
  if s.measurements.length = 0 then .error "No measurements to export"
  else
    let ds := s.measurements.map (fun meas => meas.distance)
    .ok
      { measurements := s.measurements.map (fun meas =>
          { id := meas.id
            distance_mm := meas.distance
            distance_display := meas.displayDistance
            unit := meas.unit
            timestamp := meas.timestamp
            mode := meas.mode
            accuracy := meas.accuracy
            method := meas.method })
        summary :=
          { totalMeasurements := s.measurements.length
            averageDistance := jsSum ds / (s.measurements.length : ℝ)
            minDistance := jsMinList ds
            maxDistance := jsMaxList ds } }

end V2

namespace V3

/-! ## V3: enhanced hybrid `AccurateDistanceMeasurementApp` -/

/-- The three selectable modes. -/
inductive Mode where
  | precision | ar | basic
deriving DecidableEq, Repr

/-- The `mode` tag stored in `calibrationData`. -/
inductive CalMode where
  | precision | enhanced_basic
deriving DecidableEq, Repr

/-- Reference-object keys of this variant's table. -/
inductive RefKey where
  | credit_card | business_card | a4_paper | letter_paper | post_it | quarter
deriving DecidableEq, Repr

/-- A reference object; absent fields are `none`. -/
structure RefObj where
  name : String
  width : Option ℝ := none
  height : Option ℝ := none
  diameter : Option ℝ := none
  tolerance : ℝ

/-- The `referenceObjects` table. -/
def referenceObjects : RefKey → RefObj
  | .credit_card =>
    { name := "Credit Card", width := some 85.6, height := some 53.98, tolerance := 0.5 }
  | .business_card =>
    { name := "Business Card", width := some 89, height := some 51, tolerance := 1.0 }
  | .a4_paper =>
    { name := "A4 Paper", width := some 210, height := some 297, tolerance := 2.0 }
  | .letter_paper =>
    { name := "US Letter", width := some 216, height := some 279, tolerance := 2.0 }
  | .post_it =>
    { name := "Post-it Note", width := some 76, height := some 76, tolerance := 1.0 }
  | .quarter => { name := "US Quarter", diameter := some 24.26, tolerance := 0.2 }

/-- `this.referenceObject.width || this.referenceObject.diameter`. -/
def realSize (r : RefObj) : ℝ :=
  match r.width with
  | some w => w
  | none => r.diameter.getD 0

/-- The `calibrationData` dictionary; fields written only by one of the two
calibration paths are `Option`s (absent = `none`, as in the JS object). -/
structure CalData (PM : Type) where
  mode : CalMode
  referenceObject : RefObj
  perspectiveMatrix : Option PM := none
  scale : Option ℝ := none
  calibrationFactor : Option ℝ := none
  distanceCorrection : Option ℝ := none

/-- A stored measurement record (built by `storeMeasurement`). -/
structure Measurement where
  id : ℕ
  distance : ℝ
  displayDistance : ℝ
  unit : UnitKey
  timestamp : ℕ
  points : List TPoint
  mode : CalMode
  accuracy : String

/-- The mutable app state.  `canvasWidth`/`canvasHeight` model
`this.canvas.width/height`; the two modal-visibility flags model the
`hidden` class of the calibration modals, which claim C4 depends on. -/
structure State (PM : Type) where
  currentMode : Option Mode
  isCalibrated : Bool
  calibrationData : Option (CalData PM)
  measurements : List Measurement
  measurementPoints : List TPoint
  calibrationPoints : List CPoint
  currentUnit : UnitKey
  isMeasuring : Bool
  isCalibrationMode : Bool
  referenceObject : Option RefObj
  currentStep : ℕ
  isOpenCVReady : Bool
  openCVFailed : Bool
  perspectiveMatrix : Option PM
  canvasWidth : ℝ
  canvasHeight : ℝ
  precisionReferenceSelect : RefKey
  basicReferenceSelect : RefKey
  precisionModalVisible : Bool
  basicModalVisible : Bool

variable {PM : Type}

/-- Constructor state (canvas dimensions are set from the video stream). -/
def initState (w h : ℝ) (psel bsel : RefKey) : State PM where
  currentMode := none
  isCalibrated := false
  calibrationData := none
  measurements := []
  measurementPoints := []
  calibrationPoints := []
  currentUnit := .m
  isMeasuring := false
  isCalibrationMode := false
  referenceObject := none
  currentStep := 0
  isOpenCVReady := false
  openCVFailed := false
  perspectiveMatrix := none
  canvasWidth := w
  canvasHeight := h
  precisionReferenceSelect := psel
  basicReferenceSelect := bsel
  precisionModalVisible := false
  basicModalVisible := false

/-- `onOpenCVReady` callback. -/
def onOpenCVReady (s : State PM) : State PM :=
  { s with isOpenCVReady := true }

/-- `onOpenCVFailed` callback (the rest of the handler only updates the UI:
it disables the precision button and rewords the basic one). -/
def onOpenCVFailed (s : State PM) : State PM :=
  { s with openCVFailed := true }

/-- `initializePrecisionMode`: opens the precision calibration modal. -/
def initializePrecisionMode (s : State PM) : State PM :=
  { s with precisionModalVisible := true }

/-- `initializeBasicMode`: opens the basic calibration modal. -/
def initializeBasicMode (s : State PM) : State PM :=
  { s with basicModalVisible := true }

/-- `selectMode`: precision mode requires OpenCV, otherwise the enhanced
basic mode is initialized instead; AR always falls back to basic. -/
def selectMode (m : Mode) (s : State PM) : State PM :=
  let s1 := { s with currentMode := some m }
  match m with
  | .precision =>
    if s1.isOpenCVReady = false then initializeBasicMode s1
    else initializePrecisionMode s1
  | .ar => initializeBasicMode s1
  | .basic => initializeBasicMode s1

/-- `startPrecisionCalibration`. -/
def startPrecisionCalibration (s : State PM) : State PM :=
  { s with
    precisionModalVisible := false
    referenceObject := some (referenceObjects s.precisionReferenceSelect)
    calibrationPoints := []
    isCalibrationMode := true
    isMeasuring := true
    currentStep := 1 }

/-- `startBasicCalibration` (note: `currentStep` is not touched). -/
def startBasicCalibration (s : State PM) : State PM :=
  { s with
    basicModalVisible := false
    referenceObject := some (referenceObjects s.basicReferenceSelect)
    calibrationPoints := []
    isCalibrationMode := true
    isMeasuring := true }

/-- `completeCalibration(accuracyText)`: the common tail of both calibration
paths (the accuracy text only reaches the UI). -/
def completeCalibration (s : State PM) : State PM :=
  { s with
    isCalibrated := true
    isCalibrationMode := false
    isMeasuring := false
    calibrationPoints := [] }

/-- `avgDistance / canvasCenter` from `completeBasicCalibration`
(the `distanceCorrection` value stored with the calibration). -/
noncomputable def distanceQuot (w h x1 y1 x2 y2 : ℝ) : ℝ :=
  let avgDistance := Real.sqrt (x1 * x1 + y1 * y1 + x2 * x2 + y2 * y2) / 2
  let canvasCenter := Real.sqrt (w * w + h * h) / 2
  avgDistance / canvasCenter

/-- The calibration-time "perspective correction" multiplier
`1 + distanceRatio * 0.1` applied to the scale factor. -/
noncomputable def calibrationCorrection (w h x1 y1 x2 y2 : ℝ) : ℝ :=
  1 + distanceQuot w h x1 y1 x2 y2 * 0.1

/-- The measurement-time correction
`1 + (distanceFromCenter / maxDistance) * 0.15` from
`calculateEnhancedBasicDistance`. -/
noncomputable def measurementCorrection (w h x1 y1 x2 y2 : ℝ) : ℝ :=
  let centerX := w / 2
  let centerY := h / 2
  let avgX := (x1 + x2) / 2
  let avgY := (y1 + y2) / 2
  let distanceFromCenter := Real.sqrt ((avgX - centerX) ^ 2 + (avgY - centerY) ^ 2)
  let maxDistance := Real.sqrt (centerX * centerX + centerY * centerY)
  1 + distanceFromCenter / maxDistance * 0.15

/-- `completeBasicCalibration`: linear factor from the first two recorded
corner points, boosted by the heuristic correction multiplier.  A missing
reference object would make the JS body throw before any state mutation. -/
noncomputable def completeBasicCalibration (s : State PM) : State PM :=
  match s.calibrationPoints, s.referenceObject with
  | p1 :: p2 :: _, some ref =>
    let pd := Real.sqrt ((p2.x - p1.x) ^ 2 + (p2.y - p1.y) ^ 2)
    let factor0 := realSize ref / pd
    let dq := distanceQuot s.canvasWidth s.canvasHeight p1.x p1.y p2.x p2.y
    let factor := factor0 * calibrationCorrection s.canvasWidth s.canvasHeight p1.x p1.y p2.x p2.y
    completeCalibration
      { s with
        calibrationData := some
          { mode := .enhanced_basic
            referenceObject := ref
            calibrationFactor := some factor
            distanceCorrection := some dq } }
  | _, _ => s

/-- `completePrecisionCalibration`: with four corners and OpenCV ready, one
library call yields the perspective matrix for the destination rectangle
`(0,0)-(W*10,H*10)`; the guard failure only shows an error.  A missing
reference object makes the body throw and the `catch` falls back to
`completeBasicCalibration`. -/
noncomputable def completePrecisionCalibration (lib : CVLib PM) (s : State PM) : State PM :=
  match s.calibrationPoints, s.isOpenCVReady, s.referenceObject with
  | [c1, c2, c3, c4], true, some ref =>
    let srcPoints : List (ℝ × ℝ) := [(c1.x, c1.y), (c2.x, c2.y), (c3.x, c3.y), (c4.x, c4.y)]
    let refWidth := ref.width.getD 0
    let refHeight := ref.height.getD 0
    let scale : ℝ := 10
    let dstPoints : List (ℝ × ℝ) :=
      [(0, 0), (refWidth * scale, 0), (refWidth * scale, refHeight * scale),
        (0, refHeight * scale)]
    let matrix := lib.getPerspectiveTransform srcPoints dstPoints
    completeCalibration
      { s with
        perspectiveMatrix := some matrix
        calibrationData := some
          { mode := .precision
            referenceObject := ref
            perspectiveMatrix := some matrix
            scale := some scale } }
  | [_, _, _, _], true, none => completeBasicCalibration s
  | _, _, _ => s

/-- `handlePrecisionCalibrationClick`: advance the step below 4, complete on
the fourth corner. -/
noncomputable def handlePrecisionCalibrationClick (lib : CVLib PM) (s : State PM) : State PM :=
  if s.currentStep < 4 then { s with currentStep := s.currentStep + 1 }
  else completePrecisionCalibration lib s

/-- `handleBasicCalibrationClick`. -/
noncomputable def handleBasicCalibrationClick (s : State PM) : State PM :=
  if s.calibrationPoints.length = 2 then completeBasicCalibration s else s

/-- `handleCalibrationClick`: records the corner, then dispatches on the
mode and OpenCV availability. -/
noncomputable def handleCalibrationClick (lib : CVLib PM) (x y : ℝ) (s : State PM) : State PM :=
  let s1 := { s with calibrationPoints := s.calibrationPoints ++ [⟨x, y, s.currentStep⟩] }
  if s1.currentMode = some Mode.precision ∧ s1.isOpenCVReady = true then
    handlePrecisionCalibrationClick lib s1
  else
    handleBasicCalibrationClick s1

/-- `storeMeasurement`: builds the full record, appends it and resets the
per-measurement state. -/
def storeMeasurement (now : ℕ) (distanceInMM distanceInUnit : ℝ) (mode : CalMode)
    (accuracy : String) (s : State PM) : State PM :=
  let meas : Measurement :=
    { id := now
      distance := distanceInMM
      displayDistance := distanceInUnit
      unit := s.currentUnit
      timestamp := now
      points := s.measurementPoints
      mode := mode
      accuracy := accuracy }
  { s with
    measurements := s.measurements ++ [meas]
    measurementPoints := []
    isMeasuring := false }

/-- `calculatePreciseDistance`: maps the two points through the library
transform and divides the corrected distance by the stored scale.  `none`
models the JS exception on missing data (`scale` is read off the
calibration record, which the precision path always stores as 10). -/
noncomputable def calculatePreciseDistance (lib : CVLib PM) (now : ℕ) (s : State PM) :
    Option (State PM) :=
  match s.measurementPoints, s.perspectiveMatrix, s.calibrationData with
  | [p1, p2], some matrix, some cd =>
    let q1 := lib.perspectiveTransform matrix (p1.x, p1.y)
    let q2 := lib.perspectiveTransform matrix (p2.x, p2.y)
    let correctedDistance := Real.sqrt ((q2.1 - q1.1) ^ 2 + (q2.2 - q1.2) ^ 2)
    let distanceInMM := correctedDistance / cd.scale.getD 0
    let distanceInUnit := distanceInMM * unitFactor s.currentUnit
    some (storeMeasurement now distanceInMM distanceInUnit .precision "high" s)
  | _, _, _ => none

/-- `calculateEnhancedBasicDistance`: linear conversion through the stored
factor, with the centre-distance correction applied when the stored
`distanceCorrection` is truthy (present and non-zero).  `none` models the
JS exception when `calibrationData` is null; a missing `calibrationFactor`
field is read as the (unreachable) undefined value 0. -/
noncomputable def calculateEnhancedBasicDistance (now : ℕ) (s : State PM) :
    Option (State PM) :=
  match s.measurementPoints, s.calibrationData with
  | [p1, p2], some cd =>
    let pd := pixelDistance p1 p2
    let base := pd * cd.calibrationFactor.getD 0
    let distanceInMM :=
      match cd.distanceCorrection with
      | some dc =>
        if dc ≠ 0 then
          base * measurementCorrection s.canvasWidth s.canvasHeight p1.x p1.y p2.x p2.y
        else base
      | none => base
    let distanceInUnit := distanceInMM * unitFactor s.currentUnit
    some (storeMeasurement now distanceInMM distanceInUnit .enhanced_basic "medium" s)
  | _, _ => none

/-- `calculateDistance`: guarded by the point count and the calibrated flag,
then dispatched on the calibration mode and the presence of the perspective
matrix; the try/catch turns an exception into an error message with no
state change. -/
noncomputable def calculateDistance (lib : CVLib PM) (now : ℕ) (s : State PM) : State PM :=
  if s.measurementPoints.length ≠ 2 ∨ s.isCalibrated = false then s
  else
    match s.calibrationData with
    | none => s
    | some cd =>
      if cd.mode = CalMode.precision ∧ s.perspectiveMatrix.isSome then
        (calculatePreciseDistance lib now s).getD s
      else
        (calculateEnhancedBasicDistance now s).getD s

/-- `handleMeasurementClick`. -/
noncomputable def handleMeasurementClick (lib : CVLib PM) (now : ℕ) (x y : ℝ)
    (s : State PM) : State PM :=
  let s1 := { s with measurementPoints := s.measurementPoints ++ [⟨x, y, now⟩] }
  if s1.measurementPoints.length = 2 then calculateDistance lib now s1 else s1

/-- `handleCanvasClick`. -/
noncomputable def handleCanvasClick (lib : CVLib PM) (now : ℕ) (x y : ℝ)
    (s : State PM) : State PM :=
  if s.isMeasuring = false then s
  else if s.isCalibrationMode then handleCalibrationClick lib x y s
  else handleMeasurementClick lib now x y s

/-- One serialized measurement of the export document. -/
structure ExportMeasurement where
  id : ℕ
  distance_mm : ℝ
  distance_display : ℝ
  unit : UnitKey
  timestamp : ℕ
  mode : CalMode
  accuracy : String

/-- The export `summary` block. -/
structure ExportSummary where
  totalMeasurements : ℕ
  averageDistance : ℝ
  minDistance : ℝ
  maxDistance : ℝ

/-- The produced export document (metadata blocks omitted). -/
structure ExportData where
  measurements : List ExportMeasurement
  summary : ExportSummary

/-- `exportMeasurements`: error (and no file, no state change) on an empty
list, otherwise one entry per measurement plus the summary. -/
noncomputable def exportMeasurements (s : State PM) : Except String ExportData :=
  if s.measurements.length = 0 then .error "No measurements to export"
  else
    let ds := s.measurements.map (fun meas => meas.distance)
    .ok
      { measurements := s.measurements.map (fun meas =>
          { id := meas.id
            distance_mm := meas.distance
            distance_display := meas.displayDistance
            unit := meas.unit
            timestamp := meas.timestamp
            mode := meas.mode
            accuracy := meas.accuracy })
        summary :=
          { totalMeasurements := s.measurements.length
            averageDistance := jsSum ds / (s.measurements.length : ℝ)
            minDistance := jsMinList ds
            maxDistance := jsMaxList ds } }

end V3

/-! ## IEEE-style number refinement for the division-by-zero claim

JS numbers are IEEE doubles; `x / 0` is `±Infinity` or `NaN`, not 0 as in
the real-number model above.  `JsNum` tracks the special values exactly (the
finite values stay ideal reals — rounding is irrelevant to the claim). -/

/-- A JS number: a finite value, an infinity, or NaN. -/
inductive JsNum where
  | fin : ℝ → JsNum
  | inf
  | ninf
  | nan

namespace JsNum

/-- IEEE addition on the special values. -/
noncomputable def add : JsNum → JsNum → JsNum
  | nan, _ => nan
  | _, nan => nan
  | fin a, fin b => fin (a + b)
  | inf, ninf => nan
  | ninf, inf => nan
  | inf, _ => inf
  | _, inf => inf
  | ninf, _ => ninf
  | _, ninf => ninf

/-- IEEE subtraction on the special values. -/
noncomputable def sub : JsNum → JsNum → JsNum
  | nan, _ => nan
  | _, nan => nan
  | fin a, fin b => fin (a - b)
  | inf, inf => nan
  | ninf, ninf => nan
  | inf, _ => inf
  | _, inf => ninf
  | ninf, _ => ninf
  | _, ninf => inf

/-- IEEE multiplication on the special values. -/
noncomputable def mul : JsNum → JsNum → JsNum
  | nan, _ => nan
  | _, nan => nan
  | fin a, fin b => fin (a * b)
  | fin a, inf => if 0 < a then inf else if a < 0 then ninf else nan
  | inf, fin a => if 0 < a then inf else if a < 0 then ninf else nan
  | fin a, ninf => if 0 < a then ninf else if a < 0 then inf else nan
  | ninf, fin a => if 0 < a then ninf else if a < 0 then inf else nan
  | inf, inf => inf
  | ninf, ninf => inf
  | inf, ninf => ninf
  | ninf, inf => ninf

/-- IEEE division; in particular `a / 0` is `±Infinity` for `a ≠ 0` and
`NaN` for `a = 0` (the sign of zero is not tracked). -/
noncomputable def div : JsNum → JsNum → JsNum
  | nan, _ => nan
  | _, nan => nan
  | fin a, fin b =>
    if b = 0 then (if 0 < a then inf else if a < 0 then ninf else nan)
    else fin (a / b)
  | fin _, inf => fin 0
  | fin _, ninf => fin 0
  | inf, fin a => if 0 ≤ a then inf else ninf
  | ninf, fin a => if 0 ≤ a then ninf else inf
  | _, _ => nan

/-- `Math.sqrt` on the special values. -/
noncomputable def sqrt : JsNum → JsNum
  | nan => nan
  | fin a => if a < 0 then nan else fin (Real.sqrt a)
  | inf => inf
  | ninf => nan

/-- The number is an ordinary finite value. -/
def IsFinite : JsNum → Prop
  | fin _ => True
  | _ => False

end JsNum

namespace V1

/-! IEEE refinement of the V1 calibration/measurement arithmetic (same
source lines as `completeCalibration` / `calculateDistance`, with the
number operations made IEEE-faithful). -/

/-- `Math.sqrt(Math.pow(dx, 2) + Math.pow(dy, 2))` over `JsNum`. -/
noncomputable def pixelDistanceJs (p q : TPoint) : JsNum :=
  let dx := JsNum.sub (JsNum.fin q.x) (JsNum.fin p.x)
  let dy := JsNum.sub (JsNum.fin q.y) (JsNum.fin p.y)
  JsNum.sqrt (JsNum.add (JsNum.mul dx dx) (JsNum.mul dy dy))

/-- A stored measurement with IEEE numbers. -/
structure MeasurementJs where
  id : ℕ
  distance : JsNum
  displayDistance : JsNum
  unit : UnitKey
  timestamp : ℕ
  points : List TPoint
  mode : Option Mode
  calibrationFactor : JsNum

/-- The V1 state with IEEE numbers in the calibration factor and the stored
measurements. -/
structure StateJs where
  currentMode : Option Mode
  isCalibrated : Bool
  calibrationFactor : JsNum
  measurements : List MeasurementJs
  measurementPoints : List TPoint
  currentUnit : UnitKey
  isMeasuring : Bool
  isCalibrationMode : Bool
  referenceSelect : RefKey

/-- `completeCalibration`, IEEE-faithfully: the factor is
`realSize / pixelDistance` with IEEE division, and the calibrated flag is
set with no guard on the clicked points. -/
noncomputable def completeCalibrationJs (s : StateJs) : StateJs :=
  let reference := referenceObjects s.referenceSelect
  match s.measurementPoints with
  | [p1, p2] =>
    let pd := pixelDistanceJs p1 p2
    { s with
      calibrationFactor := JsNum.div (JsNum.fin (realSize reference)) pd
      isCalibrated := true
      isCalibrationMode := false
      isMeasuring := false
      measurementPoints := [] }
  | _ => s

/-- `calculateDistance`, IEEE-faithfully. -/
noncomputable def calculateDistanceJs (now : ℕ) (s : StateJs) : StateJs :=
  match s.measurementPoints with
  | [p1, p2] =>
    let pd := pixelDistanceJs p1 p2
    let distanceInMM := JsNum.mul pd s.calibrationFactor
    let distanceInUnit := JsNum.mul distanceInMM (JsNum.fin (unitFactor s.currentUnit))
    let meas : MeasurementJs :=
      { id := now
        distance := distanceInMM
        displayDistance := distanceInUnit
        unit := s.currentUnit
        timestamp := now
        points := s.measurementPoints
        mode := s.currentMode
        calibrationFactor := s.calibrationFactor }
    { s with
      measurements := s.measurements ++ [meas]
      measurementPoints := []
      isMeasuring := false }
  | _ => s

end V1

namespace V2

/-- Inductive invariant for the pending-measurement-point bound of the
OpenCV variant: the point list never exceeds two entries, a measuring state
outside calibration mode is calibrated with at most one pending point, and
a calibrated state carries calibration data. -/
def Inv (s : State PM) : Prop :=
  s.measurementPoints.length ≤ 2 ∧
  (s.isMeasuring = true → s.isCalibrationMode = false →
    s.isCalibrated = true ∧ s.measurementPoints.length ≤ 1) ∧
  (s.isCalibrated = true → s.calibrationData.isSome)

end V2

/-! ## Theorems -/

/-- C2: in the two-point linear variant, completing calibration from exactly
two clicked points sets the scale factor to the reference object's real-world
size (width, or diameter when there is no width) divided by the pixel
distance of the two points, and every subsequent measurement converts the
pixel distance of the measured points to millimetres by multiplying with that
factor. -/
theorem v1_two_point_calibration_correct :
    (∀ (s : V1.State) (p1 p2 : TPoint), s.measurementPoints = [p1, p2] →
      (V1.completeCalibration s).calibrationFactor
          = V1.realSize (V1.referenceObjects s.referenceSelect) / pixelDistance p1 p2
        ∧ (V1.completeCalibration s).isCalibrated = true) ∧
    V1.realSize (V1.referenceObjects .credit_card) = 85.6 ∧
    V1.realSize (V1.referenceObjects .quarter) = 24.26 ∧
    (∀ (s : V1.State) (now : ℕ) (q1 q2 : TPoint), s.measurementPoints = [q1, q2] →
      ∃ meas : V1.Measurement,
        (V1.calculateDistance now s).measurements = s.measurements ++ [meas]
          ∧ meas.distance = pixelDistance q1 q2 * s.calibrationFactor) ∧
    (∀ (s : V1.State) (p1 p2 : TPoint) (t1 t2 : ℕ) (x1 y1 x2 y2 : ℝ),
      s.measurementPoints = [p1, p2] →
      ∃ meas : V1.Measurement,
        (V1.handleCanvasClick t2 x2 y2 (V1.handleCanvasClick t1 x1 y1
            (V1.startMeasuring (V1.completeCalibration s)))).measurements
          = (V1.completeCalibration s).measurements ++ [meas]
        ∧ meas.distance
          = pixelDistance ⟨x1, y1, t1⟩ ⟨x2, y2, t2⟩
              * (V1.realSize (V1.referenceObjects s.referenceSelect)
                  / pixelDistance p1 p2)) := by
  refine ⟨?_, by norm_num [V1.realSize, V1.referenceObjects],
    by norm_num [V1.realSize, V1.referenceObjects], ?_, ?_⟩
  · intro s p1 p2 hmp
    simp [V1.completeCalibration, hmp]
  · intro s now q1 q2 hmp
    refine ⟨{ id := now
              distance := pixelDistance q1 q2 * s.calibrationFactor
              displayDistance :=
                pixelDistance q1 q2 * s.calibrationFactor * unitFactor s.currentUnit
              unit := s.currentUnit
              timestamp := now
              points := [q1, q2]
              mode := s.currentMode
              calibrationFactor := s.calibrationFactor }, ?_, rfl⟩
    simp [V1.calculateDistance, hmp]
  · intro s p1 p2 t1 t2 x1 y1 x2 y2 hmp
    refine ⟨{ id := t2
              distance := pixelDistance ⟨x1, y1, t1⟩ ⟨x2, y2, t2⟩
                * (V1.realSize (V1.referenceObjects s.referenceSelect) / pixelDistance p1 p2)
              displayDistance := pixelDistance ⟨x1, y1, t1⟩ ⟨x2, y2, t2⟩
                * (V1.realSize (V1.referenceObjects s.referenceSelect) / pixelDistance p1 p2)
                * unitFactor s.currentUnit
              unit := s.currentUnit
              timestamp := t2
              points := [⟨x1, y1, t1⟩, ⟨x2, y2, t2⟩]
              mode := s.currentMode
              calibrationFactor :=
                V1.realSize (V1.referenceObjects s.referenceSelect) / pixelDistance p1 p2 },
      ?_, rfl⟩
    simp [V1.completeCalibration, V1.startMeasuring, V1.handleCanvasClick,
      V1.calculateDistance, hmp]

/-- C2 witness: the theorem instantiated at a concrete calibrated session. -/
theorem v1_two_point_calibration_correct_witness :
    ∃ meas : V1.Measurement,
      (V1.handleCanvasClick 3 3 4 (V1.handleCanvasClick 2 0 0
          (V1.startMeasuring (V1.completeCalibration
            { V1.initState with
                measurementPoints := [⟨0, 0, 0⟩, ⟨10, 0, 1⟩],
                isCalibrationMode := true, isMeasuring := true })))).measurements
        = (V1.completeCalibration
            { V1.initState with
                measurementPoints := [⟨0, 0, 0⟩, ⟨10, 0, 1⟩],
                isCalibrationMode := true, isMeasuring := true }).measurements ++ [meas]
      ∧ meas.distance
        = pixelDistance ⟨0, 0, 2⟩ ⟨3, 4, 3⟩
            * (V1.realSize (V1.referenceObjects V1.RefKey.credit_card)
                / pixelDistance ⟨0, 0, 0⟩ ⟨10, 0, 1⟩) :=
  v1_two_point_calibration_correct.2.2.2.2
    { V1.initState with
        measurementPoints := [⟨0, 0, 0⟩, ⟨10, 0, 1⟩],
        isCalibrationMode := true, isMeasuring := true }
    ⟨0, 0, 0⟩ ⟨10, 0, 1⟩ 2 3 0 0 3 4 rfl

/-- C1 counterexample: in the two-point variant the distance-calculation
step has no calibrated-flag guard — from a reachable uncalibrated state (AR
mode, measuring toggled on, two clicks) a finalized measurement is appended
even though `isCalibrated` is false. -/
theorem v1_uncalibrated_measurement_appended :
    (V1.toggleMeasurement (V1.selectMode V1.Mode.ar V1.initState)).isCalibrated = false ∧
    (V1.toggleMeasurement (V1.selectMode V1.Mode.ar V1.initState)).measurements.length = 0 ∧
    (V1.handleCanvasClick 1 3 4 (V1.handleCanvasClick 0 0 0
        (V1.toggleMeasurement
          (V1.selectMode V1.Mode.ar V1.initState)))).measurements.length = 1 := by
  refine ⟨rfl, rfl, ?_⟩
  simp [V1.toggleMeasurement, V1.selectMode, V1.initState, V1.startMeasuring,
    V1.stopMeasuring, V1.handleCanvasClick, V1.calculateDistance]

/-- C1 (amended): in the OpenCV and hybrid variants the distance-calculation
step is guarded by the calibrated flag — with `isCalibrated` false it leaves
the whole state (in particular the measurements list) unchanged, and handling
a pair of measurement clicks never appends a measurement; the two-point
variant lacks this guard (see the counterexample). -/
theorem uncalibrated_guard_v2_v3 :
    (∀ (PM : Type) (lib : CVLib PM) (now : ℕ) (s : V2.State PM),
      s.isCalibrated = false → V2.calculatePreciseDistance lib now s = s) ∧
    (∀ (PM : Type) (lib : CVLib PM) (now : ℕ) (x y : ℝ) (s : V2.State PM),
      s.isCalibrated = false →
      (V2.handleMeasurementClick lib now x y s).measurements = s.measurements) ∧
    (∀ (PM : Type) (lib : CVLib PM) (now : ℕ) (s : V3.State PM),
      s.isCalibrated = false → V3.calculateDistance lib now s = s) ∧
    (∀ (PM : Type) (lib : CVLib PM) (now : ℕ) (x y : ℝ) (s : V3.State PM),
      s.isCalibrated = false →
      (V3.handleMeasurementClick lib now x y s).measurements = s.measurements) := by
  have h2 : ∀ (PM : Type) (lib : CVLib PM) (now : ℕ) (s : V2.State PM),
      s.isCalibrated = false → V2.calculatePreciseDistance lib now s = s := by
    intro PM lib now s hc
    simp [V2.calculatePreciseDistance, hc]
  have h3 : ∀ (PM : Type) (lib : CVLib PM) (now : ℕ) (s : V3.State PM),
      s.isCalibrated = false → V3.calculateDistance lib now s = s := by
    intro PM lib now s hc
    simp [V3.calculateDistance, hc]
  refine ⟨h2, ?_, h3, ?_⟩
  · intro PM lib now x y s hc
    have key : ∀ s1 : V2.State PM, s1.isCalibrated = false →
        (if s1.measurementPoints.length = 2 then
            V2.calculatePreciseDistance lib now s1 else s1).measurements
          = s1.measurements := by
      intro s1 h1
      split
      · rw [h2 PM lib now s1 h1]
      · rfl
    dsimp only [V2.handleMeasurementClick]
    exact key { s with measurementPoints := s.measurementPoints ++ [⟨x, y, now⟩] } hc
  · intro PM lib now x y s hc
    have key : ∀ s1 : V3.State PM, s1.isCalibrated = false →
        (if s1.measurementPoints.length = 2 then
            V3.calculateDistance lib now s1 else s1).measurements
          = s1.measurements := by
      intro s1 h1
      split
      · rw [h3 PM lib now s1 h1]
      · rfl
    dsimp only [V3.handleMeasurementClick]
    exact key { s with measurementPoints := s.measurementPoints ++ [⟨x, y, now⟩] } hc

/-- C1 witness: the guard theorem at the uncalibrated constructor states. -/
theorem uncalibrated_guard_v2_v3_witness :
    V2.calculatePreciseDistance trivLib 0 (V2.initState V2.RefKey.credit_card)
        = V2.initState V2.RefKey.credit_card ∧
    (V3.handleMeasurementClick trivLib 0 1 2
        (V3.initState 100 100 V3.RefKey.credit_card V3.RefKey.credit_card)).measurements
      = (V3.initState 100 100 V3.RefKey.credit_card V3.RefKey.credit_card :
          V3.State Unit).measurements :=
  ⟨uncalibrated_guard_v2_v3.1 Unit trivLib 0 _ rfl,
   uncalibrated_guard_v2_v3.2.2.2 Unit trivLib 0 1 2 _ rfl⟩

/-- C3: the four-point perspective transform is obtained by a single call
into the external library (the statement is parametric in the library, so
the repository computes nothing of it): calibration passes the four clicked
corners and the destination rectangle `(0,0), (W*10,0), (W*10,H*10),
(0,H*10)`, and precision measurement maps the two points through the library
transform and divides the corrected Euclidean distance by the scale factor
10 to obtain millimetres — in both the OpenCV variant and the hybrid. -/
theorem perspective_transform_delegated :
    (∀ (PM : Type) (lib : CVLib PM) (s : V2.State PM) (c1 c2 c3 c4 : CPoint)
        (ref : V2.RefObj),
      s.calibrationPoints = [c1, c2, c3, c4] → s.isOpenCVReady = true →
      s.referenceObject = some ref →
      (V2.completePrecisionCalibration lib s).perspectiveMatrix
          = some (lib.getPerspectiveTransform
              [(c1.x, c1.y), (c2.x, c2.y), (c3.x, c3.y), (c4.x, c4.y)]
              [(0, 0), (ref.width * 10, 0), (ref.width * 10, ref.height * 10),
                (0, ref.height * 10)])
        ∧ ∃ cd : V2.CalData PM,
            (V2.completePrecisionCalibration lib s).calibrationData = some cd
              ∧ cd.scale = 10) ∧
    (∀ (PM : Type) (lib : CVLib PM) (now : ℕ) (s : V2.State PM)
        (p1 p2 : TPoint) (matrix : PM) (cd : V2.CalData PM),
      s.measurementPoints = [p1, p2] → s.isCalibrated = true →
      s.currentMode = some V2.Mode.precision → s.perspectiveMatrix = some matrix →
      s.calibrationData = some cd → cd.scale = 10 →
      ∃ meas : V2.Measurement,
        (V2.calculatePreciseDistance lib now s).measurements = s.measurements ++ [meas]
          ∧ meas.distance
            = Real.sqrt
                (((lib.perspectiveTransform matrix (p2.x, p2.y)).1
                    - (lib.perspectiveTransform matrix (p1.x, p1.y)).1) ^ 2
                  + ((lib.perspectiveTransform matrix (p2.x, p2.y)).2
                    - (lib.perspectiveTransform matrix (p1.x, p1.y)).2) ^ 2) / 10) ∧
    (∀ (PM : Type) (lib : CVLib PM) (s : V3.State PM) (c1 c2 c3 c4 : CPoint)
        (ref : V3.RefObj) (w h : ℝ),
      s.calibrationPoints = [c1, c2, c3, c4] → s.isOpenCVReady = true →
      s.referenceObject = some ref → ref.width = some w → ref.height = some h →
      (V3.completePrecisionCalibration lib s).perspectiveMatrix
          = some (lib.getPerspectiveTransform
              [(c1.x, c1.y), (c2.x, c2.y), (c3.x, c3.y), (c4.x, c4.y)]
              [(0, 0), (w * 10, 0), (w * 10, h * 10), (0, h * 10)])
        ∧ ∃ cd : V3.CalData PM,
            (V3.completePrecisionCalibration lib s).calibrationData = some cd
              ∧ cd.scale = some 10) ∧
    (∀ (PM : Type) (lib : CVLib PM) (now : ℕ) (s : V3.State PM)
        (p1 p2 : TPoint) (matrix : PM) (cd : V3.CalData PM),
      s.measurementPoints = [p1, p2] → s.isCalibrated = true →
      s.perspectiveMatrix = some matrix → s.calibrationData = some cd →
      cd.mode = V3.CalMode.precision → cd.scale = some 10 →
      ∃ meas : V3.Measurement,
        (V3.calculateDistance lib now s).measurements = s.measurements ++ [meas]
          ∧ meas.distance
            = Real.sqrt
                (((lib.perspectiveTransform matrix (p2.x, p2.y)).1
                    - (lib.perspectiveTransform matrix (p1.x, p1.y)).1) ^ 2
                  + ((lib.perspectiveTransform matrix (p2.x, p2.y)).2
                    - (lib.perspectiveTransform matrix (p1.x, p1.y)).2) ^ 2) / 10) := by
  refine ⟨?_, ?_, ?_, ?_⟩
  · intro PM lib s c1 c2 c3 c4 ref hcp hready href
    refine ⟨?_,
      ⟨{ pixelsPerMM := cornerDistance c1 c2 / ref.width
         perspectiveMatrix := lib.getPerspectiveTransform
           [(c1.x, c1.y), (c2.x, c2.y), (c3.x, c3.y), (c4.x, c4.y)]
           [(0, 0), (ref.width * 10, 0), (ref.width * 10, ref.height * 10),
             (0, ref.height * 10)]
         referenceObject := ref
         scale := 10
         correctedWidth := ref.width * 10
         correctedHeight := ref.height * 10 }, ?_, rfl⟩⟩ <;>
      simp [V2.completePrecisionCalibration, hcp, hready, href]
  · intro PM lib now s p1 p2 matrix cd hmp hcal hmode hpm hcd hscale
    refine ⟨{ id := now
              distance := Real.sqrt
                (((lib.perspectiveTransform matrix (p2.x, p2.y)).1
                    - (lib.perspectiveTransform matrix (p1.x, p1.y)).1) ^ 2
                  + ((lib.perspectiveTransform matrix (p2.x, p2.y)).2
                    - (lib.perspectiveTransform matrix (p1.x, p1.y)).2) ^ 2) / 10
              displayDistance := Real.sqrt
                (((lib.perspectiveTransform matrix (p2.x, p2.y)).1
                    - (lib.perspectiveTransform matrix (p1.x, p1.y)).1) ^ 2
                  + ((lib.perspectiveTransform matrix (p2.x, p2.y)).2
                    - (lib.perspectiveTransform matrix (p1.x, p1.y)).2) ^ 2) / 10
                * unitFactor s.currentUnit
              unit := s.currentUnit
              timestamp := now
              points := [p1, p2]
              correctedPoints := some [lib.perspectiveTransform matrix (p1.x, p1.y),
                lib.perspectiveTransform matrix (p2.x, p2.y)]
              mode := .precision
              accuracy := "high"
              method := "perspective_correction" }, ?_, rfl⟩
    simp [V2.calculatePreciseDistance, V2.calculateDistanceWithPerspectiveCorrection,
      hmp, hcal, hmode, hpm, hcd, hscale]
  · intro PM lib s c1 c2 c3 c4 ref w h hcp hready href hw hh
    refine ⟨?_,
      ⟨{ mode := .precision
         referenceObject := ref
         perspectiveMatrix := some (lib.getPerspectiveTransform
           [(c1.x, c1.y), (c2.x, c2.y), (c3.x, c3.y), (c4.x, c4.y)]
           [(0, 0), (w * 10, 0), (w * 10, h * 10), (0, h * 10)])
         scale := some 10 }, ?_, rfl⟩⟩ <;>
      simp [V3.completePrecisionCalibration, V3.completeCalibration,
        hcp, hready, href, hw, hh]
  · intro PM lib now s p1 p2 matrix cd hmp hcal hpm hcd hmode hscale
    refine ⟨{ id := now
              distance := Real.sqrt
                (((lib.perspectiveTransform matrix (p2.x, p2.y)).1
                    - (lib.perspectiveTransform matrix (p1.x, p1.y)).1) ^ 2
                  + ((lib.perspectiveTransform matrix (p2.x, p2.y)).2
                    - (lib.perspectiveTransform matrix (p1.x, p1.y)).2) ^ 2) / 10
              displayDistance := Real.sqrt
                (((lib.perspectiveTransform matrix (p2.x, p2.y)).1
                    - (lib.perspectiveTransform matrix (p1.x, p1.y)).1) ^ 2
                  + ((lib.perspectiveTransform matrix (p2.x, p2.y)).2
                    - (lib.perspectiveTransform matrix (p1.x, p1.y)).2) ^ 2) / 10
                * unitFactor s.currentUnit
              unit := s.currentUnit
              timestamp := now
              points := [p1, p2]
              mode := .precision
              accuracy := "high" }, ?_, rfl⟩
    simp [V3.calculateDistance, V3.calculatePreciseDistance, V3.storeMeasurement,
      hmp, hcal, hpm, hcd, hmode, hscale]

/-- C3 witness: all four parts instantiated at concrete calibration and
measurement states with the trivial library instance. -/
theorem perspective_transform_delegated_witness :
    ((V2.completePrecisionCalibration trivLib
        { (V2.initState V2.RefKey.credit_card : V2.State Unit) with
            calibrationPoints := [⟨0, 0, 1⟩, ⟨4, 0, 2⟩, ⟨4, 3, 3⟩, ⟨0, 3, 4⟩]
            isOpenCVReady := true
            referenceObject := some (V2.referenceObjects V2.RefKey.credit_card) }).perspectiveMatrix
        = some (trivLib.getPerspectiveTransform
            [(0, 0), (4, 0), (4, 3), (0, 3)]
            [(0, 0), (85.6 * 10, 0), (85.6 * 10, 53.98 * 10), (0, 53.98 * 10)])
      ∧ ∃ cd : V2.CalData Unit,
          (V2.completePrecisionCalibration trivLib
            { (V2.initState V2.RefKey.credit_card : V2.State Unit) with
                calibrationPoints := [⟨0, 0, 1⟩, ⟨4, 0, 2⟩, ⟨4, 3, 3⟩, ⟨0, 3, 4⟩]
                isOpenCVReady := true
                referenceObject :=
                  some (V2.referenceObjects V2.RefKey.credit_card) }).calibrationData
              = some cd
            ∧ cd.scale = 10) ∧
    (∃ meas : V2.Measurement,
      (V2.calculatePreciseDistance trivLib 7
          { (V2.initState V2.RefKey.credit_card : V2.State Unit) with
              measurementPoints := [⟨0, 0, 5⟩, ⟨3, 4, 6⟩]
              isCalibrated := true
              currentMode := some V2.Mode.precision
              perspectiveMatrix := some ()
              calibrationData := some
                { pixelsPerMM := 1
                  perspectiveMatrix := ()
                  referenceObject := V2.referenceObjects V2.RefKey.credit_card
                  scale := 10
                  correctedWidth := 0
                  correctedHeight := 0 } }).measurements = [] ++ [meas]
        ∧ meas.distance = Real.sqrt (((3 : ℝ) - 0) ^ 2 + ((4 : ℝ) - 0) ^ 2) / 10) ∧
    ((V3.completePrecisionCalibration trivLib
        { (V3.initState 800 600 V3.RefKey.credit_card V3.RefKey.credit_card
            : V3.State Unit) with
            calibrationPoints := [⟨0, 0, 1⟩, ⟨4, 0, 2⟩, ⟨4, 3, 3⟩, ⟨0, 3, 4⟩]
            isOpenCVReady := true
            referenceObject := some (V3.referenceObjects V3.RefKey.credit_card) }).perspectiveMatrix
        = some (trivLib.getPerspectiveTransform
            [(0, 0), (4, 0), (4, 3), (0, 3)]
            [(0, 0), (85.6 * 10, 0), (85.6 * 10, 53.98 * 10), (0, 53.98 * 10)])
      ∧ ∃ cd : V3.CalData Unit,
          (V3.completePrecisionCalibration trivLib
            { (V3.initState 800 600 V3.RefKey.credit_card V3.RefKey.credit_card
                : V3.State Unit) with
                calibrationPoints := [⟨0, 0, 1⟩, ⟨4, 0, 2⟩, ⟨4, 3, 3⟩, ⟨0, 3, 4⟩]
                isOpenCVReady := true
                referenceObject :=
                  some (V3.referenceObjects V3.RefKey.credit_card) }).calibrationData
              = some cd
            ∧ cd.scale = some 10) ∧
    (∃ meas : V3.Measurement,
      (V3.calculateDistance trivLib 7
          { (V3.initState 800 600 V3.RefKey.credit_card V3.RefKey.credit_card
              : V3.State Unit) with
              measurementPoints := [⟨0, 0, 5⟩, ⟨3, 4, 6⟩]
              isCalibrated := true
              perspectiveMatrix := some ()
              calibrationData := some
                { mode := V3.CalMode.precision
                  referenceObject := V3.referenceObjects V3.RefKey.credit_card
                  perspectiveMatrix := some ()
                  scale := some 10 } }).measurements = [] ++ [meas]
        ∧ meas.distance = Real.sqrt (((3 : ℝ) - 0) ^ 2 + ((4 : ℝ) - 0) ^ 2) / 10) :=
  ⟨perspective_transform_delegated.1 Unit trivLib _ ⟨0, 0, 1⟩ ⟨4, 0, 2⟩ ⟨4, 3, 3⟩
      ⟨0, 3, 4⟩ (V2.referenceObjects V2.RefKey.credit_card) rfl rfl rfl,
   perspective_transform_delegated.2.1 Unit trivLib 7 _ ⟨0, 0, 5⟩ ⟨3, 4, 6⟩ ()
      { pixelsPerMM := 1
        perspectiveMatrix := ()
        referenceObject := V2.referenceObjects V2.RefKey.credit_card
        scale := 10
        correctedWidth := 0
        correctedHeight := 0 } rfl rfl rfl rfl rfl rfl,
   perspective_transform_delegated.2.2.1 Unit trivLib _ ⟨0, 0, 1⟩ ⟨4, 0, 2⟩ ⟨4, 3, 3⟩
      ⟨0, 3, 4⟩ (V3.referenceObjects V3.RefKey.credit_card) 85.6 53.98 rfl rfl rfl rfl rfl,
   perspective_transform_delegated.2.2.2 Unit trivLib 7 _ ⟨0, 0, 5⟩ ⟨3, 4, 6⟩ ()
      { mode := V3.CalMode.precision
        referenceObject := V3.referenceObjects V3.RefKey.credit_card
        perspectiveMatrix := some ()
        scale := some 10 } rfl rfl rfl rfl rfl rfl⟩

/-- C4: in the hybrid variant, whenever OpenCV is unavailable every operation
falls back to the enhanced two-point path: selecting precision mode runs the
basic-mode initializer (opening the basic calibration modal), calibration
clicks dispatch to the basic click handler, and distance calculation
dispatches to the enhanced basic computation; with the perspective transform
absent no operation invokes the external library (the result is independent
of the library argument). -/
theorem hybrid_fallback_when_opencv_unavailable :
    (∀ (PM : Type) (s : V3.State PM), s.isOpenCVReady = false →
      V3.selectMode V3.Mode.precision s
          = V3.initializeBasicMode { s with currentMode := some V3.Mode.precision }
        ∧ (V3.selectMode V3.Mode.precision s).basicModalVisible = true
        ∧ (V3.selectMode V3.Mode.precision s).precisionModalVisible
            = s.precisionModalVisible) ∧
    (∀ (PM : Type) (lib : CVLib PM) (x y : ℝ) (s : V3.State PM),
      s.isOpenCVReady = false →
      V3.handleCalibrationClick lib x y s
        = V3.handleBasicCalibrationClick
            { s with calibrationPoints :=
                s.calibrationPoints ++ [⟨x, y, s.currentStep⟩] }) ∧
    (∀ (PM : Type) (lib : CVLib PM) (now : ℕ) (s : V3.State PM),
      s.perspectiveMatrix = none → s.measurementPoints.length = 2 →
      s.isCalibrated = true →
      V3.calculateDistance lib now s
        = match s.calibrationData with
          | none => s
          | some _ => (V3.calculateEnhancedBasicDistance now s).getD s) ∧
    (∀ (PM : Type) (lib lib2 : CVLib PM) (now : ℕ) (s : V3.State PM),
      s.perspectiveMatrix = none →
      V3.calculateDistance lib now s = V3.calculateDistance lib2 now s) ∧
    (∀ (PM : Type) (lib lib2 : CVLib PM) (x y : ℝ) (s : V3.State PM),
      s.isOpenCVReady = false →
      V3.handleCalibrationClick lib x y s = V3.handleCalibrationClick lib2 x y s) := by
  have hclick : ∀ (PM : Type) (lib : CVLib PM) (x y : ℝ) (s : V3.State PM),
      s.isOpenCVReady = false →
      V3.handleCalibrationClick lib x y s
        = V3.handleBasicCalibrationClick
            { s with calibrationPoints :=
                s.calibrationPoints ++ [⟨x, y, s.currentStep⟩] } := by
    intro PM lib x y s h
    simp [V3.handleCalibrationClick, h]
  refine ⟨?_, hclick, ?_, ?_, ?_⟩
  · intro PM s h
    refine ⟨?_, ?_, ?_⟩ <;> simp [V3.selectMode, V3.initializeBasicMode, h]
  · intro PM lib now s hpm hlen hcal
    cases hcds : s.calibrationData with
    | none => simp [V3.calculateDistance, hpm, hlen, hcal, hcds]
    | some cd => simp [V3.calculateDistance, hpm, hlen, hcal, hcds]
  · intro PM lib lib2 now s hpm
    simp [V3.calculateDistance, hpm]
  · intro PM lib lib2 x y s h
    rw [hclick PM lib x y s h, hclick PM lib2 x y s h]

/-- C4 witness: the fallback parts instantiated at concrete OpenCV-less
states. -/
theorem hybrid_fallback_when_opencv_unavailable_witness :
    (V3.selectMode V3.Mode.precision
        (V3.initState 800 600 V3.RefKey.credit_card V3.RefKey.credit_card : V3.State Unit)
      = V3.initializeBasicMode
          { (V3.initState 800 600 V3.RefKey.credit_card V3.RefKey.credit_card
              : V3.State Unit) with currentMode := some V3.Mode.precision }) ∧
    (V3.calculateDistance trivLib 7
        { (V3.initState 800 600 V3.RefKey.credit_card V3.RefKey.credit_card
            : V3.State Unit) with
            measurementPoints := [⟨0, 0, 5⟩, ⟨3, 4, 6⟩]
            isCalibrated := true
            calibrationData := some
              { mode := V3.CalMode.enhanced_basic
                referenceObject := V3.referenceObjects V3.RefKey.credit_card
                calibrationFactor := some 1
                distanceCorrection := some 0 } }
      = (V3.calculateEnhancedBasicDistance 7
          { (V3.initState 800 600 V3.RefKey.credit_card V3.RefKey.credit_card
              : V3.State Unit) with
              measurementPoints := [⟨0, 0, 5⟩, ⟨3, 4, 6⟩]
              isCalibrated := true
              calibrationData := some
                { mode := V3.CalMode.enhanced_basic
                  referenceObject := V3.referenceObjects V3.RefKey.credit_card
                  calibrationFactor := some 1
                  distanceCorrection := some 0 } }).getD
          { (V3.initState 800 600 V3.RefKey.credit_card V3.RefKey.credit_card
              : V3.State Unit) with
              measurementPoints := [⟨0, 0, 5⟩, ⟨3, 4, 6⟩]
              isCalibrated := true
              calibrationData := some
                { mode := V3.CalMode.enhanced_basic
                  referenceObject := V3.referenceObjects V3.RefKey.credit_card
                  calibrationFactor := some 1
                  distanceCorrection := some 0 } }) :=
  ⟨(hybrid_fallback_when_opencv_unavailable.1 Unit
      (V3.initState 800 600 V3.RefKey.credit_card V3.RefKey.credit_card) rfl).1,
   hybrid_fallback_when_opencv_unavailable.2.2.1 Unit trivLib 7
      { (V3.initState 800 600 V3.RefKey.credit_card V3.RefKey.credit_card
          : V3.State Unit) with
          measurementPoints := [⟨0, 0, 5⟩, ⟨3, 4, 6⟩]
          isCalibrated := true
          calibrationData := some
            { mode := V3.CalMode.enhanced_basic
              referenceObject := V3.referenceObjects V3.RefKey.credit_card
              calibrationFactor := some 1
              distanceCorrection := some 0 } } rfl rfl rfl⟩

/-- Helper: the JS reduce-sum is the list sum. -/
theorem jsSum_eq_sum (l : List ℝ) : jsSum l = l.sum := by
  have key : ∀ (l : List ℝ) (a : ℝ), l.foldl (fun x y => x + y) a = a + l.sum := by
    intro l
    induction l with
    | nil => intro a; simp
    | cons d ds ih => intro a; simp [List.foldl_cons, ih, add_assoc]
  simpa using key l 0

/-- Helper: a min-fold yields the seed or a list element. -/
theorem foldl_min_mem (ds : List ℝ) : ∀ d : ℝ, ds.foldl min d = d ∨ ds.foldl min d ∈ ds := by
  induction ds with
  | nil => intro d; left; rfl
  | cons e es ih =>
    intro d
    rcases ih (min d e) with h | h
    · rcases min_choice d e with hde | hde
      · left; rw [List.foldl_cons, h, hde]
      · right; rw [List.foldl_cons, h, hde]; exact List.mem_cons_self e es
    · right
      rw [List.foldl_cons]
      exact List.mem_cons_of_mem e h

/-- Helper: a min-fold is below its seed. -/
theorem foldl_min_le_init (ds : List ℝ) : ∀ d : ℝ, ds.foldl min d ≤ d := by
  induction ds with
  | nil => intro d; exact le_refl d
  | cons e es ih =>
    intro d
    calc (e :: es).foldl min d = es.foldl min (min d e) := by rw [List.foldl_cons]
    _ ≤ min d e := ih (min d e)
    _ ≤ d := min_le_left d e

/-- Helper: a min-fold is below every list element. -/
theorem foldl_min_le_mem (ds : List ℝ) :
    ∀ (d x : ℝ), x ∈ ds → ds.foldl min d ≤ x := by
  induction ds with
  | nil => intro d x hx; cases hx
  | cons e es ih =>
    intro d x hx
    rw [List.foldl_cons]
    rcases List.mem_cons.mp hx with hx | hx
    · calc es.foldl min (min d e) ≤ min d e := foldl_min_le_init es (min d e)
      _ ≤ e := min_le_right d e
      _ = x := hx.symm
    · exact ih (min d e) x hx

/-- Helper: a max-fold yields the seed or a list element. -/
theorem foldl_max_mem (ds : List ℝ) : ∀ d : ℝ, ds.foldl max d = d ∨ ds.foldl max d ∈ ds := by
  induction ds with
  | nil => intro d; left; rfl
  | cons e es ih =>
    intro d
    rcases ih (max d e) with h | h
    · rcases max_choice d e with hde | hde
      · left; rw [List.foldl_cons, h, hde]
      · right; rw [List.foldl_cons, h, hde]; exact List.mem_cons_self e es
    · right
      rw [List.foldl_cons]
      exact List.mem_cons_of_mem e h

/-- Helper: a max-fold is above its seed. -/
theorem foldl_max_ge_init (ds : List ℝ) : ∀ d : ℝ, d ≤ ds.foldl max d := by
  induction ds with
  | nil => intro d; exact le_refl d
  | cons e es ih =>
    intro d
    calc d ≤ max d e := le_max_left d e
    _ ≤ es.foldl max (max d e) := ih (max d e)
    _ = (e :: es).foldl max d := by rw [List.foldl_cons]

/-- Helper: a max-fold is above every list element. -/
theorem foldl_max_ge_mem (ds : List ℝ) :
    ∀ (d x : ℝ), x ∈ ds → x ≤ ds.foldl max d := by
  induction ds with
  | nil => intro d x hx; cases hx
  | cons e es ih =>
    intro d x hx
    rw [List.foldl_cons]
    rcases List.mem_cons.mp hx with hx | hx
    · calc x = e := hx
      _ ≤ max d e := le_max_right d e
      _ ≤ es.foldl max (max d e) := foldl_max_ge_init es (max d e)
    · exact ih (max d e) x hx

/-- Helper: the JS `Math.min` over a non-empty list is a least element. -/
theorem jsMinList_spec (l : List ℝ) (h : l ≠ []) :
    jsMinList l ∈ l ∧ ∀ x ∈ l, jsMinList l ≤ x := by
  match l, h with
  | d :: ds, _ =>
    constructor
    · rcases foldl_min_mem ds d with hm | hm
      · rw [jsMinList, hm]; exact List.mem_cons_self d ds
      · rw [jsMinList]; exact List.mem_cons_of_mem d hm
    · intro x hx
      rcases List.mem_cons.mp hx with hx | hx
      · rw [jsMinList, hx]; exact foldl_min_le_init ds d
      · rw [jsMinList]; exact foldl_min_le_mem ds d x hx

/-- Helper: the JS `Math.max` over a non-empty list is a greatest element. -/
theorem jsMaxList_spec (l : List ℝ) (h : l ≠ []) :
    jsMaxList l ∈ l ∧ ∀ x ∈ l, x ≤ jsMaxList l := by
  match l, h with
  | d :: ds, _ =>
    constructor
    · rcases foldl_max_mem ds d with hm | hm
      · rw [jsMaxList, hm]; exact List.mem_cons_self d ds
      · rw [jsMaxList]; exact List.mem_cons_of_mem d hm
    · intro x hx
      rcases List.mem_cons.mp hx with hx | hx
      · rw [jsMaxList, hx]; exact foldl_max_ge_init ds d
      · rw [jsMaxList]; exact foldl_max_ge_mem ds d x hx

/-- C7: every measurement record appended to the in-memory list carries an
identifier, the millimetre distance, a display distance tied to the selected
unit, the unit code, a timestamp, the two source pixel points, and a coarse
accuracy/method label — in all three variants (in the two-point variant the
stored `mode` is the method label). -/
theorem measurement_record_fields_complete :
    (∀ (s : V1.State) (now : ℕ) (p1 p2 : TPoint), s.measurementPoints = [p1, p2] →
      ∃ meas : V1.Measurement,
        (V1.calculateDistance now s).measurements = s.measurements ++ [meas]
          ∧ meas.id = now ∧ meas.timestamp = now ∧ meas.unit = s.currentUnit
          ∧ meas.displayDistance = meas.distance * unitFactor s.currentUnit
          ∧ meas.points = [p1, p2] ∧ meas.mode = s.currentMode) ∧
    (∀ (PM : Type) (lib : CVLib PM) (now : ℕ) (s : V2.State PM) (p1 p2 : TPoint)
        (matrix : PM) (cd : V2.CalData PM),
      s.measurementPoints = [p1, p2] → s.perspectiveMatrix = some matrix →
      s.calibrationData = some cd →
      ∃ (s2 : V2.State PM) (meas : V2.Measurement),
        V2.calculateDistanceWithPerspectiveCorrection lib now s = some s2
          ∧ s2.measurements = s.measurements ++ [meas]
          ∧ meas.id = now ∧ meas.timestamp = now ∧ meas.unit = s.currentUnit
          ∧ meas.displayDistance = meas.distance * unitFactor s.currentUnit
          ∧ meas.points = [p1, p2] ∧ meas.accuracy = "high"
          ∧ meas.method = "perspective_correction") ∧
    (∀ (now : ℕ) (PM : Type) (s : V2.State PM) (p1 p2 : TPoint) (cd : V2.CalData PM),
      s.measurementPoints = [p1, p2] → s.calibrationData = some cd →
      ∃ (s2 : V2.State PM) (meas : V2.Measurement),
        V2.calculateBasicDistance now s = some s2
          ∧ s2.measurements = s.measurements ++ [meas]
          ∧ meas.id = now ∧ meas.timestamp = now ∧ meas.unit = s.currentUnit
          ∧ meas.displayDistance = meas.distance * unitFactor s.currentUnit
          ∧ meas.points = [p1, p2] ∧ meas.accuracy = "medium"
          ∧ meas.method = "triangle_similarity") ∧
    (∀ (PM : Type) (now : ℕ) (mmv duv : ℝ) (mode : V3.CalMode) (acc : String)
        (s : V3.State PM) (p1 p2 : TPoint),
      s.measurementPoints = [p1, p2] →
      ∃ meas : V3.Measurement,
        (V3.storeMeasurement now mmv duv mode acc s).measurements
            = s.measurements ++ [meas]
          ∧ meas.id = now ∧ meas.timestamp = now ∧ meas.unit = s.currentUnit
          ∧ meas.distance = mmv ∧ meas.displayDistance = duv
          ∧ meas.points = [p1, p2] ∧ meas.mode = mode ∧ meas.accuracy = acc) := by
  refine ⟨?_, ?_, ?_, ?_⟩
  · intro s now p1 p2 hmp
    refine ⟨{ id := now
              distance := pixelDistance p1 p2 * s.calibrationFactor
              displayDistance :=
                pixelDistance p1 p2 * s.calibrationFactor * unitFactor s.currentUnit
              unit := s.currentUnit
              timestamp := now
              points := [p1, p2]
              mode := s.currentMode
              calibrationFactor := s.calibrationFactor },
      ?_, rfl, rfl, rfl, rfl, rfl, rfl⟩
    simp [V1.calculateDistance, hmp]
  · intro PM lib now s p1 p2 matrix cd hmp hpm hcd
    have hrun : V2.calculateDistanceWithPerspectiveCorrection lib now s
        = some { s with
            measurements := s.measurements ++
              [{ id := now
                 distance := Real.sqrt
                   (((lib.perspectiveTransform matrix (p2.x, p2.y)).1
                       - (lib.perspectiveTransform matrix (p1.x, p1.y)).1) ^ 2
                     + ((lib.perspectiveTransform matrix (p2.x, p2.y)).2
                       - (lib.perspectiveTransform matrix (p1.x, p1.y)).2) ^ 2) / cd.scale
                 displayDistance := Real.sqrt
                   (((lib.perspectiveTransform matrix (p2.x, p2.y)).1
                       - (lib.perspectiveTransform matrix (p1.x, p1.y)).1) ^ 2
                     + ((lib.perspectiveTransform matrix (p2.x, p2.y)).2
                       - (lib.perspectiveTransform matrix (p1.x, p1.y)).2) ^ 2) / cd.scale
                   * unitFactor s.currentUnit
                 unit := s.currentUnit
                 timestamp := now
                 points := [p1, p2]
                 correctedPoints := some [lib.perspectiveTransform matrix (p1.x, p1.y),
                   lib.perspectiveTransform matrix (p2.x, p2.y)]
                 mode := .precision
                 accuracy := "high"
                 method := "perspective_correction" }]
            measurementPoints := []
            isMeasuring := false } := by
      simp [V2.calculateDistanceWithPerspectiveCorrection, hmp, hpm, hcd]
    exact ⟨_, _, hrun, rfl, rfl, rfl, rfl, rfl, rfl, rfl, rfl⟩
  · intro now PM s p1 p2 cd hmp hcd
    have hrun : V2.calculateBasicDistance now s
        = some { s with
            measurements := s.measurements ++
              [{ id := now
                 distance := pixelDistance p1 p2 / cd.pixelsPerMM
                 displayDistance :=
                   pixelDistance p1 p2 / cd.pixelsPerMM * unitFactor s.currentUnit
                 unit := s.currentUnit
                 timestamp := now
                 points := [p1, p2]
                 mode := .basic
                 accuracy := "medium"
                 method := "triangle_similarity" }]
            measurementPoints := []
            isMeasuring := false } := by
      simp [V2.calculateBasicDistance, hmp, hcd]
    exact ⟨_, _, hrun, rfl, rfl, rfl, rfl, rfl, rfl, rfl, rfl⟩
  · intro PM now mmv duv mode acc s p1 p2 hmp
    refine ⟨{ id := now
              distance := mmv
              displayDistance := duv
              unit := s.currentUnit
              timestamp := now
              points := [p1, p2]
              mode := mode
              accuracy := acc },
      ?_, rfl, rfl, rfl, rfl, rfl, rfl, rfl, rfl⟩
    simp [V3.storeMeasurement, hmp]

/-- C7 witness: the record-completeness parts instantiated at concrete
states. -/
theorem measurement_record_fields_complete_witness :
    (∃ meas : V1.Measurement,
      (V1.calculateDistance 9
          { V1.initState with measurementPoints := [⟨0, 0, 0⟩, ⟨3, 4, 1⟩] }).measurements
          = [] ++ [meas]
        ∧ meas.id = 9 ∧ meas.timestamp = 9 ∧ meas.unit = UnitKey.m
        ∧ meas.displayDistance = meas.distance * unitFactor UnitKey.m
        ∧ meas.points = [⟨0, 0, 0⟩, ⟨3, 4, 1⟩] ∧ meas.mode = none) ∧
    (∃ (s2 : V2.State Unit) (meas : V2.Measurement),
      V2.calculateBasicDistance 9
          { (V2.initState V2.RefKey.credit_card : V2.State Unit) with
              measurementPoints := [⟨0, 0, 0⟩, ⟨3, 4, 1⟩]
              calibrationData := some
                { pixelsPerMM := 2
                  perspectiveMatrix := ()
                  referenceObject := V2.referenceObjects V2.RefKey.credit_card
                  scale := 10
                  correctedWidth := 0
                  correctedHeight := 0 } } = some s2
        ∧ s2.measurements = [] ++ [meas]
        ∧ meas.id = 9 ∧ meas.timestamp = 9 ∧ meas.unit = UnitKey.m
        ∧ meas.displayDistance = meas.distance * unitFactor UnitKey.m
        ∧ meas.points = [⟨0, 0, 0⟩, ⟨3, 4, 1⟩] ∧ meas.accuracy = "medium"
        ∧ meas.method = "triangle_similarity") ∧
    (∃ meas : V3.Measurement,
      (V3.storeMeasurement 9 5 0.005 V3.CalMode.enhanced_basic "medium"
          { (V3.initState 800 600 V3.RefKey.credit_card V3.RefKey.credit_card
              : V3.State Unit) with
              measurementPoints := [⟨0, 0, 0⟩, ⟨3, 4, 1⟩] }).measurements
          = [] ++ [meas]
        ∧ meas.id = 9 ∧ meas.timestamp = 9 ∧ meas.unit = UnitKey.m
        ∧ meas.distance = 5 ∧ meas.displayDistance = 0.005
        ∧ meas.points = [⟨0, 0, 0⟩, ⟨3, 4, 1⟩]
        ∧ meas.mode = V3.CalMode.enhanced_basic ∧ meas.accuracy = "medium") :=
  ⟨measurement_record_fields_complete.1
      { V1.initState with measurementPoints := [⟨0, 0, 0⟩, ⟨3, 4, 1⟩] }
      9 ⟨0, 0, 0⟩ ⟨3, 4, 1⟩ rfl,
   measurement_record_fields_complete.2.2.1 9 Unit
      { (V2.initState V2.RefKey.credit_card : V2.State Unit) with
          measurementPoints := [⟨0, 0, 0⟩, ⟨3, 4, 1⟩]
          calibrationData := some
            { pixelsPerMM := 2
              perspectiveMatrix := ()
              referenceObject := V2.referenceObjects V2.RefKey.credit_card
              scale := 10
              correctedWidth := 0
              correctedHeight := 0 } }
      ⟨0, 0, 0⟩ ⟨3, 4, 1⟩
      { pixelsPerMM := 2
        perspectiveMatrix := ()
        referenceObject := V2.referenceObjects V2.RefKey.credit_card
        scale := 10
        correctedWidth := 0
        correctedHeight := 0 } rfl rfl,
   measurement_record_fields_complete.2.2.2 Unit 9 5 0.005 V3.CalMode.enhanced_basic
      "medium"
      { (V3.initState 800 600 V3.RefKey.credit_card V3.RefKey.credit_card
          : V3.State Unit) with
          measurementPoints := [⟨0, 0, 0⟩, ⟨3, 4, 1⟩] }
      ⟨0, 0, 0⟩ ⟨3, 4, 1⟩ rfl⟩

/-- C8: export serializes the whole in-memory measurement list and only it:
on an empty list every variant reports an error and produces no document
(the function reads but never writes app state), and on a non-empty list the
document has one entry per stored measurement and a summary whose total is
the list length, whose average is the sum of the stored millimetre distances
divided by the count, and whose minimum/maximum are a least/greatest stored
millimetre distance. -/
theorem export_serializes_whole_list :
    (∀ s : V1.State, s.measurements = [] →
      V1.exportMeasurements s = .error "No measurements to export") ∧
    (∀ s : V1.State, s.measurements ≠ [] →
      ∃ e : V1.ExportData, V1.exportMeasurements s = .ok e
        ∧ e.measurements.length = s.measurements.length
        ∧ e.summary.totalMeasurements = s.measurements.length
        ∧ e.summary.averageDistance
            = (s.measurements.map (fun meas => meas.distance)).sum
                / (s.measurements.length : ℝ)
        ∧ e.summary.minDistance ∈ s.measurements.map (fun meas => meas.distance)
        ∧ (∀ x ∈ s.measurements.map (fun meas => meas.distance),
            e.summary.minDistance ≤ x)
        ∧ e.summary.maxDistance ∈ s.measurements.map (fun meas => meas.distance)
        ∧ (∀ x ∈ s.measurements.map (fun meas => meas.distance),
            x ≤ e.summary.maxDistance)) ∧
    (∀ (PM : Type) (s : V2.State PM), s.measurements = [] →
      V2.exportMeasurements s = .error "No measurements to export") ∧
    (∀ (PM : Type) (s : V2.State PM), s.measurements ≠ [] →
      ∃ e : V2.ExportData, V2.exportMeasurements s = .ok e
        ∧ e.measurements.length = s.measurements.length
        ∧ e.summary.totalMeasurements = s.measurements.length
        ∧ e.summary.averageDistance
            = (s.measurements.map (fun meas => meas.distance)).sum
                / (s.measurements.length : ℝ)
        ∧ e.summary.minDistance ∈ s.measurements.map (fun meas => meas.distance)
        ∧ (∀ x ∈ s.measurements.map (fun meas => meas.distance),
            e.summary.minDistance ≤ x)
        ∧ e.summary.maxDistance ∈ s.measurements.map (fun meas => meas.distance)
        ∧ (∀ x ∈ s.measurements.map (fun meas => meas.distance),
            x ≤ e.summary.maxDistance)) ∧
    (∀ (PM : Type) (s : V3.State PM), s.measurements = [] →
      V3.exportMeasurements s = .error "No measurements to export") ∧
    (∀ (PM : Type) (s : V3.State PM), s.measurements ≠ [] →
      ∃ e : V3.ExportData, V3.exportMeasurements s = .ok e
        ∧ e.measurements.length = s.measurements.length
        ∧ e.summary.totalMeasurements = s.measurements.length
        ∧ e.summary.averageDistance
            = (s.measurements.map (fun meas => meas.distance)).sum
                / (s.measurements.length : ℝ)
        ∧ e.summary.minDistance ∈ s.measurements.map (fun meas => meas.distance)
        ∧ (∀ x ∈ s.measurements.map (fun meas => meas.distance),
            e.summary.minDistance ≤ x)
        ∧ e.summary.maxDistance ∈ s.measurements.map (fun meas => meas.distance)
        ∧ (∀ x ∈ s.measurements.map (fun meas => meas.distance),
            x ≤ e.summary.maxDistance)) := by
  refine ⟨?_, ?_, ?_, ?_, ?_, ?_⟩
  · intro s h
    simp [V1.exportMeasurements, h]
  · intro s hne
    have hlen0 : ¬ s.measurements.length = 0 := by
      simpa [List.length_eq_zero] using hne
    have hmne : s.measurements.map (fun meas => meas.distance) ≠ [] := by
      simpa [List.map_eq_nil_iff] using hne
    have hok : V1.exportMeasurements s = .ok
        { measurements := s.measurements.map (fun meas =>
            { id := meas.id
              distance_mm := meas.distance
              distance_display := meas.displayDistance
              unit := meas.unit
              timestamp := meas.timestamp
              mode := meas.mode
              points := meas.points })
          summary :=
            { totalMeasurements := s.measurements.length
              averageDistance :=
                jsSum (s.measurements.map (fun meas => meas.distance))
                  / (s.measurements.length : ℝ)
              minDistance := jsMinList (s.measurements.map (fun meas => meas.distance))
              maxDistance :=
                jsMaxList (s.measurements.map (fun meas => meas.distance)) } } := by
      simp [V1.exportMeasurements, hlen0]
    refine ⟨_, hok, by simp, rfl, ?_, (jsMinList_spec _ hmne).1, (jsMinList_spec _ hmne).2,
      (jsMaxList_spec _ hmne).1, (jsMaxList_spec _ hmne).2⟩
    rw [show (jsSum (s.measurements.map (fun meas => meas.distance)))
        = (s.measurements.map (fun meas => meas.distance)).sum from jsSum_eq_sum _]
  · intro PM s h
    simp [V2.exportMeasurements, h]
  · intro PM s hne
    have hlen0 : ¬ s.measurements.length = 0 := by
      simpa [List.length_eq_zero] using hne
    have hmne : s.measurements.map (fun meas => meas.distance) ≠ [] := by
      simpa [List.map_eq_nil_iff] using hne
    have hok : V2.exportMeasurements s = .ok
        { measurements := s.measurements.map (fun meas =>
            { id := meas.id
              distance_mm := meas.distance
              distance_display := meas.displayDistance
              unit := meas.unit
              timestamp := meas.timestamp
              mode := meas.mode
              accuracy := meas.accuracy
              method := meas.method })
          summary :=
            { totalMeasurements := s.measurements.length
              averageDistance :=
                jsSum (s.measurements.map (fun meas => meas.distance))
                  / (s.measurements.length : ℝ)
              minDistance := jsMinList (s.measurements.map (fun meas => meas.distance))
              maxDistance :=
                jsMaxList (s.measurements.map (fun meas => meas.distance)) } } := by
      simp [V2.exportMeasurements, hlen0]
    refine ⟨_, hok, by simp, rfl, ?_, (jsMinList_spec _ hmne).1, (jsMinList_spec _ hmne).2,
      (jsMaxList_spec _ hmne).1, (jsMaxList_spec _ hmne).2⟩
    rw [show (jsSum (s.measurements.map (fun meas => meas.distance)))
        = (s.measurements.map (fun meas => meas.distance)).sum from jsSum_eq_sum _]
  · intro PM s h
    simp [V3.exportMeasurements, h]
  · intro PM s hne
    have hlen0 : ¬ s.measurements.length = 0 := by
      simpa [List.length_eq_zero] using hne
    have hmne : s.measurements.map (fun meas => meas.distance) ≠ [] := by
      simpa [List.map_eq_nil_iff] using hne
    have hok : V3.exportMeasurements s = .ok
        { measurements := s.measurements.map (fun meas =>
            { id := meas.id
              distance_mm := meas.distance
              distance_display := meas.displayDistance
              unit := meas.unit
              timestamp := meas.timestamp
              mode := meas.mode
              accuracy := meas.accuracy })
          summary :=
            { totalMeasurements := s.measurements.length
              averageDistance :=
                jsSum (s.measurements.map (fun meas => meas.distance))
                  / (s.measurements.length : ℝ)
              minDistance := jsMinList (s.measurements.map (fun meas => meas.distance))
              maxDistance :=
                jsMaxList (s.measurements.map (fun meas => meas.distance)) } } := by
      simp [V3.exportMeasurements, hlen0]
    refine ⟨_, hok, by simp, rfl, ?_, (jsMinList_spec _ hmne).1, (jsMinList_spec _ hmne).2,
      (jsMaxList_spec _ hmne).1, (jsMaxList_spec _ hmne).2⟩
    rw [show (jsSum (s.measurements.map (fun meas => meas.distance)))
        = (s.measurements.map (fun meas => meas.distance)).sum from jsSum_eq_sum _]

/-- C8 witness: the export parts at a concrete empty state and at a concrete
two-measurement state of the two-point variant (the other variants are
instantiated on their constructor-plus-list states). -/
theorem export_serializes_whole_list_witness :
    V1.exportMeasurements V1.initState = .error "No measurements to export" ∧
    (∃ e : V1.ExportData,
      V1.exportMeasurements
          { V1.initState with measurements :=
              [{ id := 1, distance := 5, displayDistance := 0.005, unit := .m,
                 timestamp := 1, points := [], mode := none, calibrationFactor := 1 },
               { id := 2, distance := 11, displayDistance := 0.011, unit := .m,
                 timestamp := 2, points := [], mode := none, calibrationFactor := 1 }] }
          = .ok e
        ∧ e.measurements.length = 2
        ∧ e.summary.totalMeasurements = 2
        ∧ e.summary.averageDistance = ([(5 : ℝ), 11]).sum / ((2 : ℕ) : ℝ)
        ∧ e.summary.minDistance ∈ [(5 : ℝ), 11]
        ∧ (∀ x ∈ [(5 : ℝ), 11], e.summary.minDistance ≤ x)
        ∧ e.summary.maxDistance ∈ [(5 : ℝ), 11]
        ∧ (∀ x ∈ [(5 : ℝ), 11], x ≤ e.summary.maxDistance)) ∧
    V2.exportMeasurements (V2.initState V2.RefKey.credit_card : V2.State Unit)
      = .error "No measurements to export" ∧
    V3.exportMeasurements
        (V3.initState 800 600 V3.RefKey.credit_card V3.RefKey.credit_card
          : V3.State Unit)
      = .error "No measurements to export" :=
  ⟨export_serializes_whole_list.1 V1.initState rfl,
   export_serializes_whole_list.2.1
      { V1.initState with measurements :=
          [{ id := 1, distance := 5, displayDistance := 0.005, unit := .m,
             timestamp := 1, points := [], mode := none, calibrationFactor := 1 },
           { id := 2, distance := 11, displayDistance := 0.011, unit := .m,
             timestamp := 2, points := [], mode := none, calibrationFactor := 1 }] }
      (by simp),
   export_serializes_whole_list.2.2.1 Unit (V2.initState V2.RefKey.credit_card) rfl,
   export_serializes_whole_list.2.2.2.2.1 Unit
      (V3.initState 800 600 V3.RefKey.credit_card V3.RefKey.credit_card) rfl⟩

/-- C5 counterexample: the calibration-time multiplier is not bounded by 1.1.
With a 3-by-4 canvas and both calibration clicks on the far corner (3,4) —
inside the canvas — the multiplier is `1 + (sqrt 50 / 5) * 0.1 > 1.1`,
because the average point norm exceeds the canvas-centre norm. -/
theorem calibration_correction_exceeds_claimed_bound :
    (0 : ℝ) ≤ 3 ∧ (3 : ℝ) ≤ 3 ∧ (0 : ℝ) ≤ 4 ∧ (4 : ℝ) ≤ 4 ∧
    ¬ V3.calibrationCorrection 3 4 3 4 3 4 ≤ 1.1 := by
  refine ⟨by norm_num, by norm_num, by norm_num, by norm_num, ?_⟩
  have h25 : Real.sqrt 25 = 5 := by
    rw [show (25 : ℝ) = 5 ^ 2 by norm_num]
    exact Real.sqrt_sq (by norm_num)
  have hs : Real.sqrt 50 ^ 2 = 50 := Real.sq_sqrt (by norm_num)
  have hpos : 0 ≤ Real.sqrt 50 := Real.sqrt_nonneg 50
  simp only [V3.calibrationCorrection, V3.distanceQuot, not_le]
  rw [show (3 : ℝ) * 3 + 4 * 4 + 3 * 3 + 4 * 4 = 50 by norm_num,
    show (3 : ℝ) * 3 + 4 * 4 = 25 by norm_num, h25]
  nlinarith [hs, hpos]

/-- C5 (amended): for points inside a positive canvas the measurement-time
correction multiplier lies in [1, 1.15] as claimed, and the
calibration-time multiplier lies in [1, 1 + sqrt 2 * 0.1] (about 1.1414) —
not in [1, 1.1], which the counterexample refutes. -/
theorem correction_factors_bounded_amended :
    ∀ w h x1 y1 x2 y2 : ℝ, 0 < w → 0 < h →
      0 ≤ x1 → x1 ≤ w → 0 ≤ y1 → y1 ≤ h → 0 ≤ x2 → x2 ≤ w → 0 ≤ y2 → y2 ≤ h →
      1 ≤ V3.measurementCorrection w h x1 y1 x2 y2
        ∧ V3.measurementCorrection w h x1 y1 x2 y2 ≤ 1.15
        ∧ 1 ≤ V3.calibrationCorrection w h x1 y1 x2 y2
        ∧ V3.calibrationCorrection w h x1 y1 x2 y2 ≤ 1 + Real.sqrt 2 * 0.1 := by
  intro w h x1 y1 x2 y2 hw hh hx1 hx1w hy1 hy1h hx2 hx2w hy2 hy2h
  have hmaxpos : 0 < Real.sqrt (w / 2 * (w / 2) + h / 2 * (h / 2)) :=
    Real.sqrt_pos.mpr (by nlinarith)
  have hdfc : Real.sqrt (((x1 + x2) / 2 - w / 2) ^ 2 + ((y1 + y2) / 2 - h / 2) ^ 2)
      ≤ Real.sqrt (w / 2 * (w / 2) + h / 2 * (h / 2)) := by
    apply Real.sqrt_le_sqrt
    have h1 : ((x1 + x2) / 2 - w / 2) ^ 2 ≤ w / 2 * (w / 2) := by nlinarith
    have h2 : ((y1 + y2) / 2 - h / 2) ^ 2 ≤ h / 2 * (h / 2) := by nlinarith
    linarith
  have hdfc0 : 0 ≤ Real.sqrt (((x1 + x2) / 2 - w / 2) ^ 2 + ((y1 + y2) / 2 - h / 2) ^ 2) :=
    Real.sqrt_nonneg _
  have hrat1 : Real.sqrt (((x1 + x2) / 2 - w / 2) ^ 2 + ((y1 + y2) / 2 - h / 2) ^ 2)
      / Real.sqrt (w / 2 * (w / 2) + h / 2 * (h / 2)) ≤ 1 :=
    (div_le_one hmaxpos).mpr hdfc
  have hrat0 : 0 ≤ Real.sqrt (((x1 + x2) / 2 - w / 2) ^ 2 + ((y1 + y2) / 2 - h / 2) ^ 2)
      / Real.sqrt (w / 2 * (w / 2) + h / 2 * (h / 2)) :=
    div_nonneg hdfc0 hmaxpos.le
  have hTpos : (0 : ℝ) < w * w + h * h := by nlinarith
  have hcpos : 0 < Real.sqrt (w * w + h * h) / 2 := by
    have := Real.sqrt_pos.mpr hTpos
    linarith
  have hSle : x1 * x1 + y1 * y1 + x2 * x2 + y2 * y2 ≤ 2 * (w * w + h * h) := by nlinarith
  have hsqrtS : Real.sqrt (x1 * x1 + y1 * y1 + x2 * x2 + y2 * y2)
      ≤ Real.sqrt 2 * Real.sqrt (w * w + h * h) := by
    calc Real.sqrt (x1 * x1 + y1 * y1 + x2 * x2 + y2 * y2)
        ≤ Real.sqrt (2 * (w * w + h * h)) := Real.sqrt_le_sqrt hSle
    _ = Real.sqrt 2 * Real.sqrt (w * w + h * h) :=
        Real.sqrt_mul (by norm_num) (w * w + h * h)
  have hq2 : Real.sqrt (x1 * x1 + y1 * y1 + x2 * x2 + y2 * y2) / 2
      / (Real.sqrt (w * w + h * h) / 2) ≤ Real.sqrt 2 := by
    rw [div_le_iff₀ hcpos]
    linarith [hsqrtS]
  have hq0 : 0 ≤ Real.sqrt (x1 * x1 + y1 * y1 + x2 * x2 + y2 * y2) / 2
      / (Real.sqrt (w * w + h * h) / 2) := by
    apply div_nonneg _ hcpos.le
    have := Real.sqrt_nonneg (x1 * x1 + y1 * y1 + x2 * x2 + y2 * y2)
    linarith
  refine ⟨?_, ?_, ?_, ?_⟩ <;>
    simp only [V3.measurementCorrection, V3.calibrationCorrection, V3.distanceQuot]
  · have h := mul_nonneg hrat0 (show (0 : ℝ) ≤ 0.15 by norm_num)
    linarith
  · have h := mul_le_mul_of_nonneg_right hrat1 (show (0 : ℝ) ≤ 0.15 by norm_num)
    rw [one_mul] at h
    linarith
  · have h := mul_nonneg hq0 (show (0 : ℝ) ≤ 0.1 by norm_num)
    linarith
  · have h := mul_le_mul_of_nonneg_right hq2 (show (0 : ℝ) ≤ 0.1 by norm_num)
    linarith

/-- C5 witness: the amended bounds at a concrete canvas and point pair. -/
theorem correction_factors_bounded_amended_witness :
    1 ≤ V3.measurementCorrection 3 4 0 0 3 4
      ∧ V3.measurementCorrection 3 4 0 0 3 4 ≤ 1.15
      ∧ 1 ≤ V3.calibrationCorrection 3 4 0 0 3 4
      ∧ V3.calibrationCorrection 3 4 0 0 3 4 ≤ 1 + Real.sqrt 2 * 0.1 :=
  correction_factors_bounded_amended 3 4 0 0 3 4 (by norm_num) (by norm_num)
    (by norm_num) (by norm_num) (by norm_num) (by norm_num) (by norm_num)
    (by norm_num) (by norm_num) (by norm_num)

/-- C6: precision calibration is a four-step linear counter in both variants
that have it: below step 4 each canvas click records exactly one corner
tagged with the current step and advances the step by exactly one; the
fourth click does not advance the counter but completes the calibration with
exactly four recorded points, clearing the point list and leaving
calibration mode; and completion does nothing when the recorded point count
is not four. -/
theorem precision_calibration_four_step_counter :
    (∀ (PM : Type) (lib : CVLib PM) (t : ℕ) (x y : ℝ) (s : V2.State PM),
      s.isMeasuring = true → s.isCalibrationMode = true → s.currentStep < 4 →
      V2.handleCanvasClick lib t x y s
        = { s with
            calibrationPoints := s.calibrationPoints ++ [⟨x, y, s.currentStep⟩]
            currentStep := s.currentStep + 1 }) ∧
    (∀ (PM : Type) (lib : CVLib PM) (s : V2.State PM),
      s.calibrationPoints.length ≠ 4 → V2.completePrecisionCalibration lib s = s) ∧
    (∀ (PM : Type) (lib : CVLib PM) (s0 : V2.State PM)
        (t1 t2 t3 t4 : ℕ) (x1 y1 x2 y2 x3 y3 x4 y4 : ℝ),
      s0.isOpenCVReady = true →
      (V2.runEvents lib [.canvasClick t1 x1 y1]
          (V2.startPrecisionCalibration s0)).currentStep = 2
      ∧ (V2.runEvents lib [.canvasClick t1 x1 y1]
          (V2.startPrecisionCalibration s0)).calibrationPoints = [⟨x1, y1, 1⟩]
      ∧ (V2.runEvents lib [.canvasClick t1 x1 y1, .canvasClick t2 x2 y2]
          (V2.startPrecisionCalibration s0)).currentStep = 3
      ∧ (V2.runEvents lib [.canvasClick t1 x1 y1, .canvasClick t2 x2 y2]
          (V2.startPrecisionCalibration s0)).calibrationPoints
          = [⟨x1, y1, 1⟩, ⟨x2, y2, 2⟩]
      ∧ (V2.runEvents lib [.canvasClick t1 x1 y1, .canvasClick t2 x2 y2,
            .canvasClick t3 x3 y3]
          (V2.startPrecisionCalibration s0)).currentStep = 4
      ∧ (V2.runEvents lib [.canvasClick t1 x1 y1, .canvasClick t2 x2 y2,
            .canvasClick t3 x3 y3]
          (V2.startPrecisionCalibration s0)).calibrationPoints
          = [⟨x1, y1, 1⟩, ⟨x2, y2, 2⟩, ⟨x3, y3, 3⟩]
      ∧ (V2.runEvents lib [.canvasClick t1 x1 y1, .canvasClick t2 x2 y2,
            .canvasClick t3 x3 y3, .canvasClick t4 x4 y4]
          (V2.startPrecisionCalibration s0)).isCalibrated = true
      ∧ (V2.runEvents lib [.canvasClick t1 x1 y1, .canvasClick t2 x2 y2,
            .canvasClick t3 x3 y3, .canvasClick t4 x4 y4]
          (V2.startPrecisionCalibration s0)).isCalibrationMode = false
      ∧ (V2.runEvents lib [.canvasClick t1 x1 y1, .canvasClick t2 x2 y2,
            .canvasClick t3 x3 y3, .canvasClick t4 x4 y4]
          (V2.startPrecisionCalibration s0)).calibrationPoints = []
      ∧ (V2.runEvents lib [.canvasClick t1 x1 y1, .canvasClick t2 x2 y2,
            .canvasClick t3 x3 y3, .canvasClick t4 x4 y4]
          (V2.startPrecisionCalibration s0)).currentStep = 4
      ∧ ((V2.runEvents lib [.canvasClick t1 x1 y1, .canvasClick t2 x2 y2,
            .canvasClick t3 x3 y3, .canvasClick t4 x4 y4]
          (V2.startPrecisionCalibration s0)).calibrationData).isSome = true) ∧
    (∀ (PM : Type) (lib : CVLib PM) (t : ℕ) (x y : ℝ) (s : V3.State PM),
      s.isMeasuring = true → s.isCalibrationMode = true →
      s.currentMode = some V3.Mode.precision → s.isOpenCVReady = true →
      s.currentStep < 4 →
      V3.handleCanvasClick lib t x y s
        = { s with
            calibrationPoints := s.calibrationPoints ++ [⟨x, y, s.currentStep⟩]
            currentStep := s.currentStep + 1 }) ∧
    (∀ (PM : Type) (lib : CVLib PM) (s : V3.State PM),
      s.calibrationPoints.length ≠ 4 → V3.completePrecisionCalibration lib s = s) ∧
    (∀ (PM : Type) (lib : CVLib PM) (s0 : V3.State PM)
        (t1 t2 t3 t4 : ℕ) (x1 y1 x2 y2 x3 y3 x4 y4 : ℝ),
      s0.isOpenCVReady = true → s0.currentMode = some V3.Mode.precision →
      (V3.handleCanvasClick lib t3 x3 y3 (V3.handleCanvasClick lib t2 x2 y2
          (V3.handleCanvasClick lib t1 x1 y1
            (V3.startPrecisionCalibration s0)))).currentStep = 4
      ∧ (V3.handleCanvasClick lib t3 x3 y3 (V3.handleCanvasClick lib t2 x2 y2
          (V3.handleCanvasClick lib t1 x1 y1
            (V3.startPrecisionCalibration s0)))).calibrationPoints
          = [⟨x1, y1, 1⟩, ⟨x2, y2, 2⟩, ⟨x3, y3, 3⟩]
      ∧ (V3.handleCanvasClick lib t4 x4 y4 (V3.handleCanvasClick lib t3 x3 y3
          (V3.handleCanvasClick lib t2 x2 y2 (V3.handleCanvasClick lib t1 x1 y1
            (V3.startPrecisionCalibration s0))))).isCalibrated = true
      ∧ (V3.handleCanvasClick lib t4 x4 y4 (V3.handleCanvasClick lib t3 x3 y3
          (V3.handleCanvasClick lib t2 x2 y2 (V3.handleCanvasClick lib t1 x1 y1
            (V3.startPrecisionCalibration s0))))).isCalibrationMode = false
      ∧ (V3.handleCanvasClick lib t4 x4 y4 (V3.handleCanvasClick lib t3 x3 y3
          (V3.handleCanvasClick lib t2 x2 y2 (V3.handleCanvasClick lib t1 x1 y1
            (V3.startPrecisionCalibration s0))))).calibrationPoints = []
      ∧ (V3.handleCanvasClick lib t4 x4 y4 (V3.handleCanvasClick lib t3 x3 y3
          (V3.handleCanvasClick lib t2 x2 y2 (V3.handleCanvasClick lib t1 x1 y1
            (V3.startPrecisionCalibration s0))))).currentStep = 4
      ∧ ((V3.handleCanvasClick lib t4 x4 y4 (V3.handleCanvasClick lib t3 x3 y3
          (V3.handleCanvasClick lib t2 x2 y2 (V3.handleCanvasClick lib t1 x1 y1
            (V3.startPrecisionCalibration s0))))).calibrationData).isSome = true) := by
  refine ⟨?_, ?_, ?_, ?_, ?_, ?_⟩
  · intro PM lib t x y s hm hcm hlt
    simp [V2.handleCanvasClick, V2.handleCalibrationClick, hm, hcm, hlt]
  · intro PM lib s hlen
    rcases hcp : s.calibrationPoints with _ | ⟨c1, _ | ⟨c2, _ | ⟨c3, _ | ⟨c4, _ | ⟨c5, rest⟩⟩⟩⟩⟩ <;>
      cases hready : s.isOpenCVReady <;>
      cases href : s.referenceObject <;>
      simp_all [V2.completePrecisionCalibration]
  · intro PM lib s0 t1 t2 t3 t4 x1 y1 x2 y2 x3 y3 x4 y4 hready
    refine ⟨?_, ?_, ?_, ?_, ?_, ?_, ?_, ?_, ?_, ?_, ?_⟩ <;>
      simp [V2.runEvents, V2.step, V2.handleCanvasClick, V2.handleCalibrationClick,
        V2.startPrecisionCalibration, V2.completePrecisionCalibration, hready]
  · intro PM lib t x y s hm hcm hmode hready hlt
    simp [V3.handleCanvasClick, V3.handleCalibrationClick,
      V3.handlePrecisionCalibrationClick, hm, hcm, hmode, hready, hlt]
  · intro PM lib s hlen
    rcases hcp : s.calibrationPoints with _ | ⟨c1, _ | ⟨c2, _ | ⟨c3, _ | ⟨c4, _ | ⟨c5, rest⟩⟩⟩⟩⟩ <;>
      cases hready : s.isOpenCVReady <;>
      cases href : s.referenceObject <;>
      simp_all [V3.completePrecisionCalibration]
  · intro PM lib s0 t1 t2 t3 t4 x1 y1 x2 y2 x3 y3 x4 y4 hready hmode
    refine ⟨?_, ?_, ?_, ?_, ?_, ?_⟩ <;>
      simp [V3.handleCanvasClick, V3.handleCalibrationClick,
        V3.handlePrecisionCalibrationClick, V3.startPrecisionCalibration,
        V3.completePrecisionCalibration, V3.completeCalibration, hready, hmode]

/-- C6 witness: the counter behaviour at concrete calibration sessions. -/
theorem precision_calibration_four_step_counter_witness :
    V2.handleCanvasClick trivLib 0 5 6
        { (V2.initState V2.RefKey.credit_card : V2.State Unit) with
            isMeasuring := true, isCalibrationMode := true, currentStep := 2 }
      = { (V2.initState V2.RefKey.credit_card : V2.State Unit) with
            isMeasuring := true, isCalibrationMode := true,
            calibrationPoints := [⟨5, 6, 2⟩], currentStep := 3 } ∧
    V2.completePrecisionCalibration trivLib
        (V2.initState V2.RefKey.credit_card : V2.State Unit)
      = (V2.initState V2.RefKey.credit_card : V2.State Unit) ∧
    (V2.runEvents trivLib [.canvasClick 1 0 0, .canvasClick 2 2 0,
        .canvasClick 3 2 1, .canvasClick 4 0 1]
      (V2.startPrecisionCalibration
        { (V2.initState V2.RefKey.credit_card : V2.State Unit) with
            isOpenCVReady := true })).isCalibrated = true ∧
    V3.handleCanvasClick trivLib 0 5 6
        { (V3.initState 800 600 V3.RefKey.credit_card V3.RefKey.credit_card
            : V3.State Unit) with
            isMeasuring := true, isCalibrationMode := true,
            currentMode := some V3.Mode.precision, isOpenCVReady := true,
            currentStep := 2 }
      = { (V3.initState 800 600 V3.RefKey.credit_card V3.RefKey.credit_card
            : V3.State Unit) with
            isMeasuring := true, isCalibrationMode := true,
            currentMode := some V3.Mode.precision, isOpenCVReady := true,
            calibrationPoints := [⟨5, 6, 2⟩], currentStep := 3 } ∧
    V3.completePrecisionCalibration trivLib
        (V3.initState 800 600 V3.RefKey.credit_card V3.RefKey.credit_card
          : V3.State Unit)
      = (V3.initState 800 600 V3.RefKey.credit_card V3.RefKey.credit_card
          : V3.State Unit) ∧
    (V3.handleCanvasClick trivLib 4 0 1 (V3.handleCanvasClick trivLib 3 2 1
        (V3.handleCanvasClick trivLib 2 2 0 (V3.handleCanvasClick trivLib 1 0 0
          (V3.startPrecisionCalibration
            { (V3.initState 800 600 V3.RefKey.credit_card V3.RefKey.credit_card
                : V3.State Unit) with
                isOpenCVReady := true,
                currentMode := some V3.Mode.precision }))))).isCalibrated = true :=
  ⟨precision_calibration_four_step_counter.1 Unit trivLib 0 5 6
      { (V2.initState V2.RefKey.credit_card : V2.State Unit) with
          isMeasuring := true, isCalibrationMode := true, currentStep := 2 }
      rfl rfl (by norm_num),
   precision_calibration_four_step_counter.2.1 Unit trivLib
      (V2.initState V2.RefKey.credit_card) (by simp [V2.initState]),
   (precision_calibration_four_step_counter.2.2.1 Unit trivLib
      { (V2.initState V2.RefKey.credit_card : V2.State Unit) with
          isOpenCVReady := true }
      1 2 3 4 0 0 2 0 2 1 0 1 rfl).2.2.2.2.2.2.1,
   precision_calibration_four_step_counter.2.2.2.1 Unit trivLib 0 5 6
      { (V3.initState 800 600 V3.RefKey.credit_card V3.RefKey.credit_card
          : V3.State Unit) with
          isMeasuring := true, isCalibrationMode := true,
          currentMode := some V3.Mode.precision, isOpenCVReady := true,
          currentStep := 2 }
      rfl rfl rfl rfl (by norm_num),
   precision_calibration_four_step_counter.2.2.2.2.1 Unit trivLib
      (V3.initState 800 600 V3.RefKey.credit_card V3.RefKey.credit_card)
      (by simp [V3.initState]),
   (precision_calibration_four_step_counter.2.2.2.2.2 Unit trivLib
      { (V3.initState 800 600 V3.RefKey.credit_card V3.RefKey.credit_card
          : V3.State Unit) with
          isOpenCVReady := true, currentMode := some V3.Mode.precision }
      1 2 3 4 0 0 2 0 2 1 0 1 rfl rfl).2.2.1⟩

/-- Helper: multiplying any JS number by `Infinity` never yields a finite
value. -/
theorem jsnum_mul_inf_not_finite (n : JsNum) : ¬ (JsNum.mul n JsNum.inf).IsFinite := by
  cases n with
  | fin a =>
    show ¬ (if 0 < a then JsNum.inf else if a < 0 then JsNum.ninf else JsNum.nan).IsFinite
    split_ifs <;> simp [JsNum.IsFinite]
  | inf => simp [JsNum.mul, JsNum.IsFinite]
  | ninf => simp [JsNum.mul, JsNum.IsFinite]
  | nan => simp [JsNum.mul, JsNum.IsFinite]

/-- C9: two-point calibration has no guard on the clicked points — when both
calibration clicks land on the same pixel the pixel distance is 0, the IEEE
division yields `Infinity` (a non-finite calibration factor), the calibrated
flag is nevertheless set, and every subsequently finalized measurement then
stores a non-finite distance. -/
theorem division_by_zero_calibration_unguarded :
    ∀ (s : V1.StateJs) (x y : ℝ) (u1 u2 : ℕ),
      s.measurementPoints = [⟨x, y, u1⟩, ⟨x, y, u2⟩] →
      (V1.completeCalibrationJs s).calibrationFactor = JsNum.inf
        ∧ (V1.completeCalibrationJs s).isCalibrated = true
        ∧ ∀ (t : V1.StateJs) (now : ℕ) (q1 q2 : TPoint),
            t.calibrationFactor = JsNum.inf → t.measurementPoints = [q1, q2] →
            ∃ meas : V1.MeasurementJs,
              (V1.calculateDistanceJs now t).measurements = t.measurements ++ [meas]
                ∧ ¬ meas.distance.IsFinite := by
  intro s x y u1 u2 hmp
  have hpd : V1.pixelDistanceJs ⟨x, y, u1⟩ ⟨x, y, u2⟩ = JsNum.fin 0 := by
    show JsNum.sqrt (JsNum.fin ((x - x) * (x - x) + (y - y) * (y - y))) = JsNum.fin 0
    rw [show (x - x) * (x - x) + (y - y) * (y - y) = 0 by ring]
    simp [JsNum.sqrt, Real.sqrt_zero]
  have hrs : 0 < V1.realSize (V1.referenceObjects s.referenceSelect) := by
    cases hsel : s.referenceSelect <;> norm_num [V1.realSize, V1.referenceObjects]
  refine ⟨?_, ?_, ?_⟩
  · simp [V1.completeCalibrationJs, hmp, hpd, JsNum.div, hrs]
  · simp [V1.completeCalibrationJs, hmp]
  · intro t now q1 q2 hfac hmp2
    refine ⟨{ id := now
              distance := JsNum.mul (V1.pixelDistanceJs q1 q2) JsNum.inf
              displayDistance := JsNum.mul
                (JsNum.mul (V1.pixelDistanceJs q1 q2) JsNum.inf)
                (JsNum.fin (unitFactor t.currentUnit))
              unit := t.currentUnit
              timestamp := now
              points := [q1, q2]
              mode := t.currentMode
              calibrationFactor := JsNum.inf }, ?_,
      jsnum_mul_inf_not_finite (V1.pixelDistanceJs q1 q2)⟩
    simp [V1.calculateDistanceJs, hmp2, hfac]

/-- C9 witness: a concrete same-pixel calibration followed by a concrete
measurement. -/
theorem division_by_zero_calibration_unguarded_witness :
    (V1.completeCalibrationJs
        { currentMode := none, isCalibrated := false,
          calibrationFactor := JsNum.fin 1, measurements := [],
          measurementPoints := [⟨2, 3, 0⟩, ⟨2, 3, 1⟩], currentUnit := .m,
          isMeasuring := true, isCalibrationMode := true,
          referenceSelect := .credit_card }).calibrationFactor = JsNum.inf ∧
    (V1.completeCalibrationJs
        { currentMode := none, isCalibrated := false,
          calibrationFactor := JsNum.fin 1, measurements := [],
          measurementPoints := [⟨2, 3, 0⟩, ⟨2, 3, 1⟩], currentUnit := .m,
          isMeasuring := true, isCalibrationMode := true,
          referenceSelect := .credit_card }).isCalibrated = true ∧
    (∃ meas : V1.MeasurementJs,
      (V1.calculateDistanceJs 5
          { currentMode := none, isCalibrated := true,
            calibrationFactor := JsNum.inf, measurements := [],
            measurementPoints := [⟨0, 0, 2⟩, ⟨3, 4, 3⟩], currentUnit := .m,
            isMeasuring := true, isCalibrationMode := false,
            referenceSelect := .credit_card }).measurements = [] ++ [meas]
        ∧ ¬ meas.distance.IsFinite) :=
  ⟨(division_by_zero_calibration_unguarded
      { currentMode := none, isCalibrated := false,
        calibrationFactor := JsNum.fin 1, measurements := [],
        measurementPoints := [⟨2, 3, 0⟩, ⟨2, 3, 1⟩], currentUnit := .m,
        isMeasuring := true, isCalibrationMode := true,
        referenceSelect := .credit_card } 2 3 0 1 rfl).1,
   (division_by_zero_calibration_unguarded
      { currentMode := none, isCalibrated := false,
        calibrationFactor := JsNum.fin 1, measurements := [],
        measurementPoints := [⟨2, 3, 0⟩, ⟨2, 3, 1⟩], currentUnit := .m,
        isMeasuring := true, isCalibrationMode := true,
        referenceSelect := .credit_card } 2 3 0 1 rfl).2.1,
   (division_by_zero_calibration_unguarded
      { currentMode := none, isCalibrated := false,
        calibrationFactor := JsNum.fin 1, measurements := [],
        measurementPoints := [⟨2, 3, 0⟩, ⟨2, 3, 1⟩], currentUnit := .m,
        isMeasuring := true, isCalibrationMode := true,
        referenceSelect := .credit_card } 2 3 0 1 rfl).2.2
      { currentMode := none, isCalibrated := true,
        calibrationFactor := JsNum.inf, measurements := [],
        measurementPoints := [⟨0, 0, 2⟩, ⟨3, 4, 3⟩], currentUnit := .m,
        isMeasuring := true, isCalibrationMode := false,
        referenceSelect := .credit_card } 5 ⟨0, 0, 2⟩ ⟨3, 4, 3⟩ rfl rfl⟩

/-- C10 counterexample: the at-most-two bound fails in a reachable state of
the OpenCV variant.  Calibrate (4 corner clicks), start measuring, press
"Recalibrate" (which resets the calibrated flag but not the measuring flag),
then click three times: the second click's distance calculation bails out on
the cleared calibrated flag without resetting the list, so the third click
makes it three pending points. -/
theorem measurement_points_exceed_two_via_recalibration :
    (V2.runEvents trivLib
      [V2.Ev.opencvReady,
       V2.Ev.selectMode V2.Mode.precision,
       V2.Ev.startPrecisionCalibration,
       V2.Ev.canvasClick 0 0 0,
       V2.Ev.canvasClick 1 2 0,
       V2.Ev.canvasClick 2 2 1,
       V2.Ev.canvasClick 3 0 1,
       V2.Ev.toggleMeasurement,
       V2.Ev.showRecalibration,
       V2.Ev.canvasClick 4 5 5,
       V2.Ev.canvasClick 5 6 6,
       V2.Ev.canvasClick 6 7 7]
      (V2.initState V2.RefKey.credit_card : V2.State Unit)).measurementPoints.length
      = 3 := by
  simp [V2.runEvents, V2.step, V2.onOpenCvReady, V2.selectMode,
    V2.initializePrecisionMode, V2.startPrecisionCalibration, V2.handleCanvasClick,
    V2.handleCalibrationClick, V2.completePrecisionCalibration, V2.toggleMeasurement,
    V2.startMeasuring, V2.stopMeasuring, V2.resetMeasurementState,
    V2.showRecalibration, V2.resetCalibration, V2.handleMeasurementClick,
    V2.calculatePreciseDistance, V2.initState]

/-- Helper: when the guard passes (two points, calibrated, calibration data
present), the distance calculation clears the pending point list and stops
measuring, leaving the calibration fields alone. -/
theorem v2_calc_resets {PM : Type} (lib : CVLib PM) (now : ℕ) (s1 : V2.State PM)
    (hlen : s1.measurementPoints.length = 2) (hcal : s1.isCalibrated = true)
    (hcd : s1.calibrationData.isSome = true) :
    (V2.calculatePreciseDistance lib now s1).measurementPoints = []
      ∧ (V2.calculatePreciseDistance lib now s1).isMeasuring = false
      ∧ (V2.calculatePreciseDistance lib now s1).isCalibrated = s1.isCalibrated
      ∧ (V2.calculatePreciseDistance lib now s1).calibrationData = s1.calibrationData := by
  rcases hmp : s1.measurementPoints with _ | ⟨p1, _ | ⟨p2, _ | ⟨p3, r⟩⟩⟩ <;>
    rw [hmp] at hlen <;> try simp at hlen
  rcases hcds : s1.calibrationData with _ | cd
  · rw [hcds] at hcd; simp at hcd
  · by_cases hbr : s1.currentMode = some V2.Mode.precision ∧ s1.perspectiveMatrix.isSome = true
    · obtain ⟨M, hM⟩ := Option.isSome_iff_exists.mp hbr.2
      refine ⟨?_, ?_, ?_, ?_⟩ <;>
        simp [V2.calculatePreciseDistance, V2.calculateDistanceWithPerspectiveCorrection,
          hmp, hcal, hbr.1, hM, hcds]
    · refine ⟨?_, ?_, ?_, ?_⟩ <;>
        simp [V2.calculatePreciseDistance, V2.calculateBasicDistance,
          hmp, hcal, hcds, hbr]

/-- Helper: the distance calculation either leaves the pending point list
alone (guard failure or exception) or clears it. -/
theorem v2_calc_mp_cases {PM : Type} (lib : CVLib PM) (now : ℕ) (s1 : V2.State PM) :
    (V2.calculatePreciseDistance lib now s1).measurementPoints = s1.measurementPoints
      ∨ (V2.calculatePreciseDistance lib now s1).measurementPoints = [] := by
  unfold V2.calculatePreciseDistance
  split
  · left; rfl
  · split
    · rcases hmp : s1.measurementPoints with _ | ⟨p1, _ | ⟨p2, _ | ⟨p3, r⟩⟩⟩ <;>
        rcases hpm : s1.perspectiveMatrix with _ | M <;>
        rcases hcds : s1.calibrationData with _ | cd <;>
        simp [V2.calculateDistanceWithPerspectiveCorrection, hmp, hpm, hcds]
    · rcases hmp : s1.measurementPoints with _ | ⟨p1, _ | ⟨p2, _ | ⟨p3, r⟩⟩⟩ <;>
        rcases hcds : s1.calibrationData with _ | cd <;>
        simp [V2.calculateBasicDistance, hmp, hcds]

/-- Helper: `completePrecisionCalibration` never touches the pending
measurement points; it either completes (stops measuring, stores calibration
data), resets the calibration, or changes nothing. -/
theorem v2_complete_cases {PM : Type} (lib : CVLib PM) (s1 : V2.State PM) :
    (V2.completePrecisionCalibration lib s1).measurementPoints = s1.measurementPoints
      ∧ ((V2.completePrecisionCalibration lib s1).isMeasuring = false
          ∨ (V2.completePrecisionCalibration lib s1).isCalibrationMode
              = s1.isCalibrationMode)
      ∧ (((V2.completePrecisionCalibration lib s1).calibrationData).isSome = true
          ∨ (V2.completePrecisionCalibration lib s1).isCalibrated = false
          ∨ ((V2.completePrecisionCalibration lib s1).isCalibrated = s1.isCalibrated
              ∧ (V2.completePrecisionCalibration lib s1).calibrationData
                  = s1.calibrationData)) := by
  rcases hcp : s1.calibrationPoints with _ | ⟨c1, _ | ⟨c2, _ | ⟨c3, _ | ⟨c4, _ | ⟨c5, rest⟩⟩⟩⟩⟩ <;>
    cases hready : s1.isOpenCVReady <;>
    rcases href : s1.referenceObject with _ | ref <;>
    refine ⟨?_, ?_, ?_⟩ <;>
    simp [V2.completePrecisionCalibration, V2.resetCalibration, hcp, hready, href]

/-- Helper: the benign-reachability invariant is preserved by every event
other than the mid-session recalibration. -/
theorem v2_inv_preserved {PM : Type} (lib : CVLib PM) (e : V2.Ev) (s : V2.State PM)
    (hInv : V2.Inv s) (hne : e ≠ V2.Ev.showRecalibration) :
    V2.Inv (V2.step lib e s) := by
  obtain ⟨hA, hB, hC⟩ := hInv
  cases e with
  | opencvReady => exact ⟨hA, hB, hC⟩
  | selectMode m =>
    have hgo : V2.Inv (V2.goBack { s with currentMode := some m }) := by
      refine ⟨by simp [V2.goBack, V2.resetCalibration], ?_, ?_⟩ <;>
        simp [V2.goBack, V2.resetCalibration]
    cases m with
    | precision =>
      simp only [V2.step, V2.selectMode, V2.initializePrecisionMode]
      split
      · exact hgo
      · exact ⟨hA, hB, hC⟩
    | ar =>
      simp only [V2.step, V2.selectMode, V2.initializePrecisionMode]
      split
      · exact hgo
      · exact ⟨hA, hB, hC⟩
    | basic => exact ⟨hA, hB, hC⟩
  | startPrecisionCalibration =>
    refine ⟨hA, ?_, hC⟩
    intro _ hcm
    simp [V2.step, V2.startPrecisionCalibration] at hcm
  | canvasClick now x y =>
    simp only [V2.step, V2.handleCanvasClick]
    by_cases hm : s.isMeasuring = false
    · rw [if_pos hm]; exact ⟨hA, hB, hC⟩
    · rw [if_neg hm]
      have hm1 : s.isMeasuring = true := by
        revert hm; cases s.isMeasuring <;> simp
      by_cases hcm : s.isCalibrationMode = true
      · rw [if_pos hcm]
        simp only [V2.handleCalibrationClick]
        split
        · refine ⟨hA, ?_, hC⟩
          intro _ hcm2
          simp [hcm] at hcm2
        · obtain ⟨hmp2, hms2, hcd2⟩ := v2_complete_cases lib
            { s with calibrationPoints := s.calibrationPoints ++ [⟨x, y, s.currentStep⟩] }
          refine ⟨by rw [hmp2]; exact hA, ?_, ?_⟩
          · intro hm2 hcm2
            rcases hms2 with hms2 | hms2
            · rw [hm2] at hms2; cases hms2
            · rw [hcm2] at hms2
              simp [hcm] at hms2
          · intro hcal2
            rcases hcd2 with hcd2 | hcd2 | ⟨hcd2a, hcd2b⟩
            · exact hcd2
            · rw [hcal2] at hcd2; cases hcd2
            · rw [hcd2b]
              exact hC (by rw [← hcd2a]; exact hcal2)
      · rw [if_neg hcm]
        have hcm0 : s.isCalibrationMode = false := by
          revert hcm; cases s.isCalibrationMode <;> simp
        obtain ⟨hcal, hlen1⟩ := hB hm1 hcm0
        simp only [V2.handleMeasurementClick]
        split
        · rename_i hlen2
          have hreset := v2_calc_resets lib now
            { s with measurementPoints := s.measurementPoints ++ [⟨x, y, now⟩] }
            hlen2 hcal (hC hcal)
          refine ⟨by rw [hreset.1]; simp, ?_, ?_⟩
          · intro hm2 _
            rw [hreset.2.1] at hm2; cases hm2
          · intro hcal2
            rw [hreset.2.2.2]
            exact hC (by rw [← hreset.2.2.1]; exact hcal2)
        · rename_i hlen2
          rw [List.length_append, List.length_cons, List.length_nil] at hlen2
          refine ⟨?_, ?_, hC⟩
          · simp only [List.length_append, List.length_cons, List.length_nil]
            omega
          · intro _ _
            refine ⟨hcal, ?_⟩
            simp only [List.length_append, List.length_cons, List.length_nil]
            omega
  | toggleMeasurement =>
    simp only [V2.step, V2.toggleMeasurement]
    by_cases hc : s.isCalibrated = false
    · rw [if_pos hc]; exact ⟨hA, hB, hC⟩
    · rw [if_neg hc]
      have hc1 : s.isCalibrated = true := by
        revert hc; cases s.isCalibrated <;> simp
      by_cases hm : s.isMeasuring = true
      · rw [if_pos hm]
        exact ⟨by simp [V2.stopMeasuring, V2.resetMeasurementState],
          by simp [V2.stopMeasuring, V2.resetMeasurementState], hC⟩
      · rw [if_neg hm]
        refine ⟨by simp [V2.startMeasuring], ?_, hC⟩
        intro _ _
        exact ⟨hc1, by simp [V2.startMeasuring]⟩
  | clearMeasurements =>
    exact ⟨by simp [V2.step, V2.clearMeasurements, V2.resetMeasurementState],
      by simp [V2.step, V2.clearMeasurements, V2.resetMeasurementState], hC⟩
  | undoLastPoint =>
    simp only [V2.step, V2.undoLastPoint]
    split
    · refine ⟨?_, ?_, hC⟩
      · simp only [List.length_dropLast]
        omega
      · intro hm2 hcm2
        obtain ⟨hcal, hlen1⟩ := hB hm2 hcm2
        refine ⟨hcal, ?_⟩
        simp only [List.length_dropLast]
        omega
    · exact ⟨hA, hB, hC⟩
  | startNewMeasurement =>
    exact ⟨by simp [V2.step, V2.startNewMeasurement, V2.resetMeasurementState],
      by simp [V2.step, V2.startNewMeasurement, V2.resetMeasurementState], hC⟩
  | showRecalibration => exact absurd rfl hne
  | goBack =>
    refine ⟨by simp [V2.step, V2.goBack, V2.resetCalibration], ?_, ?_⟩ <;>
      simp [V2.step, V2.goBack, V2.resetCalibration]

/-- Helper: every benignly-reachable state satisfies the invariant. -/
theorem v2_inv_reachable {PM : Type} (lib : CVLib PM) (s : V2.State PM)
    (hr : V2.ReachableBenign lib s) : V2.Inv s := by
  induction hr with
  | init sel =>
    refine ⟨by simp [V2.initState], ?_, ?_⟩ <;> intro h <;> simp [V2.initState] at h
  | step e hr hne ih => exact v2_inv_preserved lib e _ ih hne

/-- C10 (amended): each measurement click appends one point, and a second
point with calibration complete (flag set and data present) makes the
distance calculation clear the list; consequently the pending list holds at
most two points in every state reachable without the mid-session
recalibration event.  With that event included the bound fails (see the
counterexample): recalibration clears the calibrated flag while measuring
stays active, the guard then returns without resetting, and a third point
accumulates. -/
theorem measurement_points_at_most_two_benign :
    (∀ (PM : Type) (lib : CVLib PM) (s : V2.State PM),
      V2.ReachableBenign lib s → s.measurementPoints.length ≤ 2) ∧
    (∀ (PM : Type) (lib : CVLib PM) (now : ℕ) (x y : ℝ) (s : V2.State PM),
      s.measurementPoints.length = 1 → s.isCalibrated = true →
      s.calibrationData.isSome = true →
      (V2.handleMeasurementClick lib now x y s).measurementPoints = []) ∧
    (∀ (PM : Type) (lib : CVLib PM) (now : ℕ) (x y : ℝ) (s : V2.State PM),
      (V2.handleMeasurementClick lib now x y s).measurementPoints
          = s.measurementPoints ++ [⟨x, y, now⟩]
        ∨ (V2.handleMeasurementClick lib now x y s).measurementPoints = []) := by
  refine ⟨?_, ?_, ?_⟩
  · intro PM lib s hr
    exact (v2_inv_reachable lib s hr).1
  · intro PM lib now x y s hmp1 hcal hcd
    dsimp only [V2.handleMeasurementClick]
    have hlen2 : (s.measurementPoints ++ [(⟨x, y, now⟩ : TPoint)]).length = 2 := by
      simp [hmp1]
    rw [if_pos hlen2]
    exact (v2_calc_resets lib now
      { s with measurementPoints := s.measurementPoints ++ [⟨x, y, now⟩] }
      hlen2 hcal hcd).1
  · intro PM lib now x y s
    dsimp only [V2.handleMeasurementClick]
    split
    · rcases v2_calc_mp_cases lib now
        { s with measurementPoints := s.measurementPoints ++ [⟨x, y, now⟩] } with h | h
      · exact Or.inl h
      · exact Or.inr h
    · exact Or.inl rfl

/-- C10 witness: the bound at the constructor state, and a concrete resetting
second click. -/
theorem measurement_points_at_most_two_benign_witness :
    (V2.initState V2.RefKey.credit_card : V2.State Unit).measurementPoints.length ≤ 2 ∧
    (V2.handleMeasurementClick trivLib 6 3 4
        { (V2.initState V2.RefKey.credit_card : V2.State Unit) with
            measurementPoints := [⟨0, 0, 5⟩]
            isMeasuring := true
            isCalibrated := true
            calibrationData := some
              { pixelsPerMM := 2
                perspectiveMatrix := ()
                referenceObject := V2.referenceObjects V2.RefKey.credit_card
                scale := 10
                correctedWidth := 0
                correctedHeight := 0 } }).measurementPoints = [] :=
  ⟨measurement_points_at_most_two_benign.1 Unit trivLib _
      (V2.ReachableBenign.init V2.RefKey.credit_card),
   measurement_points_at_most_two_benign.2.1 Unit trivLib 6 3 4
      { (V2.initState V2.RefKey.credit_card : V2.State Unit) with
          measurementPoints := [⟨0, 0, 5⟩]
          isMeasuring := true
          isCalibrated := true
          calibrationData := some
            { pixelsPerMM := 2
              perspectiveMatrix := ()
              referenceObject := V2.referenceObjects V2.RefKey.credit_card
              scale := 10
              correctedWidth := 0
              correctedHeight := 0 } } rfl rfl rfl⟩
